import Mathlib

/-!
# SafeTalk single-user SMS service — shallow embedding and verification

This file embeds the message-direction / conversation-state resolver of the
SafeTalk SMS service (serverless webhook `api/webhooks/sms.js`, helper services
`smsHelpers.ts`, `twilioService.ts`, `userService.ts`) into Lean and proves or
refutes the specification claims about it.

Conventions of the embedding:
* JavaScript strings are modelled as Lean `String`; `.trim()` / `.toLowerCase()`
  are modelled by `jsTrim` / `jsToLower` below (structural, kernel-reducible).
* The Supabase tables `messages` and `response_options` are modelled as lists
  in insertion order (`created_at` ordering coincides with list order); primary
  keys are allocated from a monotone counter.
* External collaborators (OpenAI calls, SMS transport) are nondeterministic:
  each webhook event carries their outcome as oracle data.  A transport `send`
  is recorded as an *attempt* `(to, body)`; a failed attempt additionally makes
  the call throw, which the handlers catch as in the source.
* Record-store writes are modelled as always succeeding (the source logs and
  swallows insert errors; that failure mode is outside this model).
-/

namespace SafeTalk

/-- One SMS send attempt: `(destination address, body text)`. -/
abbrev SMS := String × String

/-! ## JavaScript string primitives -/

/-- The JavaScript `\s` whitespace class (as used by `String.prototype.trim`
and the regex literals in the source). -/
def isJsWhitespace (c : Char) : Bool :=
  c = ' ' || c = '\t' || c = '\n' || c = '\r' || c = '\x0b' || c = '\x0c' ||
  c = '\u00A0' || c = '\u1680' ||
  (0x2000 ≤ c.toNat && c.toNat ≤ 0x200A) ||
  c = '\u2028' || c = '\u2029' || c = '\u202F' || c = '\u205F' || c = '\u3000' ||
  c = '\uFEFF'

/-- JavaScript `String.prototype.trim`. -/
def jsTrim (s : String) : String :=
  String.mk ((((s.data.dropWhile isJsWhitespace).reverse).dropWhile isJsWhitespace).reverse)

/-- JavaScript `String.prototype.toLowerCase` (ASCII-relevant part). -/
def jsToLower (s : String) : String :=
  String.mk (s.data.map Char.toLower)

/-- JavaScript truthiness of an optional string field coming from the
database: `undefined`, `null` and `""` are falsy. -/
def jsFalsy : Option String → Bool
  | none => true
  | some s => s = ""

/-! ## Phone Normalizer (`twilioService.formatPhoneNumber` / `isValidPhoneNumber`) -/

/-- `phoneNumber.replace(/\D/g, '')`: keep only ASCII digits. -/
def cleanDigits (s : String) : List Char :=
  s.data.filter Char.isDigit

/-- `cleaned.startsWith('+')`. -/
def startsWithPlus (s : String) : Bool :=
  match s.data with
  | [] => false
  | c :: _ => c = '+'

/-- `twilioService.formatPhoneNumber`. -/
def formatPhoneNumber (phoneNumber : String) : String :=
  let cleaned := String.mk (cleanDigits phoneNumber)
  if cleaned.length = 10 then "+1" ++ cleaned
  else if !(startsWithPlus cleaned) then "+" ++ cleaned
  else cleaned

/-- `twilioService.isValidPhoneNumber`. -/
def isValidPhoneNumber (phoneNumber : String) : Bool :=
  let cleaned := cleanDigits phoneNumber
  7 ≤ cleaned.length && cleaned.length ≤ 15

/-! ## Reply Parser (`smsHelpers.parseUserResponse`) -/

/-- Result record of `SMSHelpers.parseUserResponse`. -/
structure SMSResponseParseResult where
  isValidResponse : Bool
  selectedOption : Option Nat := none
  customResponse : Option String := none
  errorMessage : Option String := none
deriving DecidableEq, Repr

/-- `SMSHelpers.parseUserResponse`. -/
def parseUserResponse (responseText : String) : SMSResponseParseResult :=
  let trimmed := jsTrim responseText
  if trimmed = "1" ∨ trimmed = "2" ∨ trimmed = "3" then
    { isValidResponse := true
      selectedOption := some (if trimmed = "1" then 1 else if trimmed = "2" then 2 else 3) }
  else
    let lowerTrimmed := jsToLower trimmed
    if lowerTrimmed = "one" ∨ lowerTrimmed = "first" ∨ lowerTrimmed = "option 1" ∨
        lowerTrimmed = "option one" then
      { isValidResponse := true, selectedOption := some 1 }
    else if lowerTrimmed = "two" ∨ lowerTrimmed = "second" ∨ lowerTrimmed = "option 2" ∨
        lowerTrimmed = "option two" then
      { isValidResponse := true, selectedOption := some 2 }
    else if lowerTrimmed = "three" ∨ lowerTrimmed = "third" ∨ lowerTrimmed = "option 3" ∨
        lowerTrimmed = "option three" then
      { isValidResponse := true, selectedOption := some 3 }
    else if 0 < trimmed.length ∧ trimmed.length ≤ 500 then
      { isValidResponse := true, customResponse := some trimmed }
    else
      { isValidResponse := false
        errorMessage := some "Response must be 1, 2, 3, or a custom message (max 500 characters)" }

/-- The stored reply-option row (`response_options` table). -/
structure ResponseOptions where
  messageId : Nat
  option1 : String
  option2 : String
  option3 : String
  selectedResponse : Option String := none
  customResponse : Option String := none
deriving DecidableEq, Repr

/-- `SMSHelpers.getSelectedResponseText`. -/
def getSelectedResponseText (responseOptions : ResponseOptions) (selectedOption : Nat) :
    Option String :=
  match selectedOption with
  | 1 => some responseOptions.option1
  | 2 => some responseOptions.option2
  | 3 => some responseOptions.option3
  | _ => none

/-! ## Special-command parsing (`smsHelpers.parseSpecialCommands`) -/

inductive Command where
  | help | status | stop | start
deriving DecidableEq, Repr

/-- Result record of `SMSHelpers.parseSpecialCommands`. -/
structure SpecialCommandResult where
  isCommand : Bool
  command : Option Command := none
deriving DecidableEq, Repr

/-- `SMSHelpers.parseSpecialCommands`. -/
def parseSpecialCommands (messageText : String) : SpecialCommandResult :=
  let trimmed := jsToLower (jsTrim messageText)
  if trimmed = "help" ∨ trimmed = "?" then
    { isCommand := true, command := some .help }
  else if trimmed = "status" ∨ trimmed = "info" then
    { isCommand := true, command := some .status }
  else if trimmed = "stop" ∨ trimmed = "pause" ∨ trimmed = "disable" then
    { isCommand := true, command := some .stop }
  else if trimmed = "start" ∨ trimmed = "resume" ∨ trimmed = "enable" then
    { isCommand := true, command := some .start }
  else
    { isCommand := false }

/-! ## Message-content validation (`smsHelpers.validateMessageContent`) -/

/-- Codepoints removed (besides whitespace) by `SMSHelpers.isNonTextMessage`:
the emoji blocks of the source regex. -/
def isEmojiCodepoint (n : Nat) : Bool :=
  (0x1F600 ≤ n && n ≤ 0x1F64F) || (0x1F300 ≤ n && n ≤ 0x1F5FF) ||
  (0x1F680 ≤ n && n ≤ 0x1F6FF) || (0x1F1E0 ≤ n && n ≤ 0x1F1FF)

/-- `SMSHelpers.isNonTextMessage`. -/
def isNonTextMessage (text : String) : Bool :=
  let cleanText := text.data.filter fun c => !(isJsWhitespace c || isEmojiCodepoint c.toNat)
  cleanText.length < 3

/-- Result record of `SMSHelpers.validateMessageContent`. -/
structure ContentValidation where
  isValid : Bool
  error : Option String := none
deriving DecidableEq, Repr

/-- `SMSHelpers.validateMessageContent`. -/
def validateMessageContent (text : String) : ContentValidation :=
  if (jsTrim text).length = 0 then
    { isValid := false, error := some "Empty message" }
  else if text.length > 1000 then
    { isValid := false, error := some "Message too long (max 1000 characters)" }
  else if isNonTextMessage text then
    { isValid := false, error := some "Message contains only emojis or special characters" }
  else
    { isValid := true }

/-! ## Setup-message phone scanning (`smsHelpers.parseSetupMessage`)

The source scans the trimmed text with the global regex
`/(\+?1?[-.\s]?\(?[0-9]{3}\)?[-.\s]?[0-9]{3}[-.\s]?[0-9]{4})/g`.
We embed that concrete pattern as a list of components with the same
greedy-with-backtracking semantics as the JavaScript engine. -/

/-- The separator class `[-.\s]` of the phone regex. -/
def isSepChar (c : Char) : Bool :=
  c = '-' || c = '.' || isJsWhitespace c

/-- One component of the phone pattern: an optional literal (`c?`), an
optional separator (`[-.\s]?`), or a fixed-length digit run (`[0-9]{n}`). -/
inductive PComp where
  | lit (c : Char)
  | sep
  | dig (n : Nat)

/-- Match a fixed run of `n` ASCII digits, returning the consumed digits and
the rest. -/
def takeDigits : Nat → List Char → Option (List Char × List Char)
  | 0, cs => some ([], cs)
  | _ + 1, [] => none
  | n + 1, c :: cs =>
    if c.isDigit then
      match takeDigits n cs with
      | some (ds, rest) => some (c :: ds, rest)
      | none => none
    else none

/-- Backtracking matcher for a component list, mirroring the JavaScript regex
engine: each `?` greedily tries to consume first and backtracks to the empty
alternative.  Returns the consumed prefix and the remaining input. -/
def matchComps : List PComp → List Char → Option (List Char × List Char)
  | [], cs => some ([], cs)
  | .lit c :: ps, cs =>
    (match cs with
     | c' :: cs' =>
       if c' = c then
         match matchComps ps cs' with
         | some (pre, rest) => some (c' :: pre, rest)
         | none => matchComps ps cs
       else matchComps ps cs
     | [] => matchComps ps [])
  | .sep :: ps, cs =>
    (match cs with
     | c' :: cs' =>
       if isSepChar c' then
         match matchComps ps cs' with
         | some (pre, rest) => some (c' :: pre, rest)
         | none => matchComps ps cs
       else matchComps ps cs
     | [] => matchComps ps [])
  | .dig n :: ps, cs =>
    match takeDigits n cs with
    | some (ds, rest) =>
      match matchComps ps rest with
      | some (pre, rest') => some (ds ++ pre, rest')
      | none => none
    | none => none

/-- The phone pattern `\+?1?[-.\s]?\(?[0-9]{3}\)?[-.\s]?[0-9]{3}[-.\s]?[0-9]{4}`. -/
def phonePattern : List PComp :=
  [.lit '+', .lit '1', .sep, .lit '(', .dig 3, .lit ')', .sep, .dig 3, .sep, .dig 4]

/-- Global scan (`String.prototype.match` with the `g` flag): successive
non-overlapping matches scanning left to right; an empty match advances the
scan position by one, as the JavaScript engine does. -/
def scanAux : Nat → List Char → List (List Char)
  | 0, _ => []
  | _ + 1, [] => []
  | fuel + 1, c :: cs =>
    match matchComps phonePattern (c :: cs) with
    | some (pre, rest) =>
      if pre.isEmpty then pre :: scanAux fuel cs
      else pre :: scanAux fuel rest
    | none => scanAux fuel cs

/-- All matches of the phone pattern in the given character list. -/
def phoneMatches (cs : List Char) : List (List Char) :=
  scanAux (cs.length + 1) cs

/-! ### Name extraction (`smsHelpers.extractNamesFromSetupMessage`) -/

/-- `SMSHelpers.capitalizeFirstLetter`. -/
def capitalizeFirstLetter (name : String) : String :=
  match name.data with
  | [] => name
  | c :: rest => String.mk (c.toUpper :: rest.map Char.toLower)

/-- Case-insensitive match of the (lower-case) pattern `pat` against a prefix
of `cs`; returns the rest of `cs` on success. -/
def matchCI : List Char → List Char → Option (List Char)
  | [], cs => some cs
  | _ :: _, [] => none
  | p :: ps, c :: cs => if c.toLower = p then matchCI ps cs else none

/-- First alternative of `alts` (in order) matching at the head of `cs`. -/
def firstAltMatch (alts : List (List Char)) (cs : List Char) : Option (List Char) :=
  match alts with
  | [] => none
  | a :: rest =>
    match matchCI a cs with
    | some cs' => some cs'
    | none => firstAltMatch rest cs

/-- Global case-insensitive replacement of any of `alts` by a single space,
as `text.replace(/alt1|alt2|.../gi, ' ')`. -/
def replaceAltsAux (alts : List (List Char)) : Nat → List Char → List Char
  | 0, cs => cs
  | _ + 1, [] => []
  | fuel + 1, c :: cs =>
    match firstAltMatch alts (c :: cs) with
    | some rest => ' ' :: replaceAltsAux alts fuel rest
    | none => c :: replaceAltsAux alts fuel cs

def replaceAlts (alts : List String) (cs : List Char) : List Char :=
  replaceAltsAux (alts.map String.data) (cs.length + 1) cs

/-- Collapse runs of JavaScript whitespace to a single space
(`.replace(/\s+/g, ' ')`). -/
def collapseWhitespace : Nat → List Char → List Char
  | 0, cs => cs
  | _ + 1, [] => []
  | fuel + 1, c :: cs =>
    if isJsWhitespace c then ' ' :: collapseWhitespace fuel (cs.dropWhile isJsWhitespace)
    else c :: collapseWhitespace fuel cs

/-- Replace the first occurrence of `pat` in `cs` by nothing
(JavaScript `String.prototype.replace` with a string argument). -/
def removeFirstOccurrence (pat : List Char) : Nat → List Char → List Char
  | 0, cs => cs
  | _ + 1, [] => []
  | fuel + 1, c :: cs =>
    if pat.isPrefixOf (c :: cs) then (c :: cs).drop pat.length
    else c :: removeFirstOccurrence pat fuel cs

/-- The character class `[+\d\s\-\(\)]` of the phone-remnant filter. -/
def isPhoneRemnantChar (c : Char) : Bool :=
  c = '+' || c.isDigit || isJsWhitespace c || c = '-' || c = '(' || c = ')'

/-- Stopwords dropped by the word filter (`/^(and|is|the|...)$/i`). -/
def nameStopwords : List String :=
  ["and", "is", "the", "my", "ex", "partner", "name", "your", "co-parent", "co",
   "parent", "number"]

/-- Split on runs of whitespace, dropping empty fragments
(JavaScript `split(/\s+/)` on already-trimmed text). -/
def splitWhitespace (cs : List Char) : List (List Char) :=
  (cs.splitOnP isJsWhitespace).map id |>.filter (· ≠ [])

/-- `SMSHelpers.extractNamesFromSetupMessage`. -/
def extractNamesFromSetupMessage (messageText phoneNumber : String) :
    Option String × Option String :=
  let textWithoutPhone :=
    jsTrim (String.mk (removeFirstOccurrence phoneNumber.data
      (messageText.data.length + 1) messageText.data))
  let step1 := replaceAlts
    ["my name is", "i\x27m", "i am", "my ex", "ex is", "ex:", "ex-partner:",
     "ex partner:", "their name is"] textWithoutPhone.data
  let step2 := replaceAlts
    ["your name:", "your co-parent\x27s name:", "your co-parent\x27s number:",
     "name:", "co-parent name:", "co-parent\x27s name:", "number:"] step1
  let step3 := step2.map fun c => if c = ',' ∨ c = ';' ∨ c = ':' ∨ c = '\n' ∨ c = '\r' then ' ' else c
  let cleanText := jsTrim (String.mk (collapseWhitespace (step3.length + 1) step3))
  if cleanText = "" then (none, none)
  else
    let words := (splitWhitespace cleanText.data).map String.mk |>.filter fun word =>
      1 < word.length &&
      !(word.data ≠ [] && word.data.all isPhoneRemnantChar) &&
      !(nameStopwords.contains (jsToLower word))
    match words with
    | [] => (none, none)
    | [w] => (some (capitalizeFirstLetter w), none)
    | w :: rest =>
      (some (capitalizeFirstLetter w),
       (rest.getLast?).map capitalizeFirstLetter)

/-- Result record of `SMSHelpers.parseSetupMessage`. -/
structure SetupParseResult where
  isSetupMessage : Bool
  exPartnerPhone : Option String := none
  userName : Option String := none
  exPartnerName : Option String := none
  error : Option String := none
deriving DecidableEq, Repr

def noPhoneFoundError : String :=
  "No phone number found. Please provide your ex-partner\x27s phone number in format: +1234567890"

def multiplePhonesError : String :=
  "Multiple phone numbers found. Please provide only one phone number."

def invalidPhoneFormatError : String :=
  "Invalid phone number format. Please use format: +1234567890"

/-- `SMSHelpers.parseSetupMessage`. -/
def parseSetupMessage (messageText : String) : SetupParseResult :=
  let trimmed := jsTrim messageText
  let phoneMatchesFound := phoneMatches trimmed.data
  match phoneMatchesFound with
  | [] => { isSetupMessage := false, error := some noPhoneFoundError }
  | m :: rest =>
    if rest ≠ [] then
      { isSetupMessage := false, error := some multiplePhonesError }
    else
      let phoneNumber := String.mk m
      let formattedPhone := formatPhoneNumber phoneNumber
      if !(isValidPhoneNumber formattedPhone) then
        { isSetupMessage := false, error := some invalidPhoneFormatError }
      else
        let names := extractNamesFromSetupMessage trimmed phoneNumber
        { isSetupMessage := true
          exPartnerPhone := some formattedPhone
          userName := names.1
          exPartnerName := names.2 }

/-! ## Basic fallback filtering (`aiService.basicFilterUserResponse`) -/

/-- The JavaScript `\w` word-character class. -/
def isWordChar (c : Char) : Bool :=
  c.isAlpha || c.isDigit || c = '_'

/-- Hostile words removed by the fallback filter. -/
def hostileWords : List String :=
  ["stupid", "idiot", "hate", "terrible", "awful", "worst", "useless",
   "damn", "hell", "crazy", "ridiculous", "pathetic", "loser", "jerk"]

/-- Does the case-insensitive word `w` match at the head of `cs` with a word
boundary on the right (`\bword\b`, the left boundary being checked by the
caller)? Returns the rest on success. -/
def matchWordCI (w : List Char) (cs : List Char) : Option (List Char) :=
  match matchCI w cs with
  | some rest =>
    match rest with
    | [] => some []
    | c :: _ => if isWordChar c then none else some rest
  | none => none

/-- One global pass of `filtered.replace(/\bword\b/gi, '[removed]')`.
`prevIsWord` tracks whether the previous character of the original string is a
word character (for the left `\b`). -/
def replaceHostileWordAux (w : List Char) : Nat → Bool → List Char → List Char
  | 0, _, cs => cs
  | _ + 1, _, [] => []
  | fuel + 1, prevIsWord, c :: cs =>
    if !prevIsWord then
      match matchWordCI w (c :: cs) with
      | some rest =>
        ("[removed]".data) ++ replaceHostileWordAux w fuel true rest
      | none => c :: replaceHostileWordAux w fuel (isWordChar c) cs
    else c :: replaceHostileWordAux w fuel (isWordChar c) cs

def replaceHostileWord (w : String) (cs : List Char) : List Char :=
  replaceHostileWordAux w.data (cs.length + 1) false cs

/-- Collapse runs of length ≥ 2 of `target` to the single character `repl`
(`.replace(/[c]{2,}/g, r)`). -/
def collapseRuns (target repl : Char) : Nat → List Char → List Char
  | 0, cs => cs
  | _ + 1, [] => []
  | fuel + 1, c :: cs =>
    if c = target then
      match cs with
      | c' :: _ =>
        if c' = target then repl :: collapseRuns target repl fuel (cs.dropWhile (· = target))
        else c :: collapseRuns target repl fuel cs
      | [] => [c]
    else c :: collapseRuns target repl fuel cs

/-- Uppercase ASCII letter (`[A-Z]`). -/
def isUpperAscii (c : Char) : Bool :=
  'A' ≤ c && c ≤ 'Z'

/-- `.replace(/[A-Z]{3,}/g, m => m.charAt(0) + m.slice(1).toLowerCase())`. -/
def softenCapsAux : Nat → List Char → List Char
  | 0, cs => cs
  | _ + 1, [] => []
  | fuel + 1, c :: cs =>
    if isUpperAscii c then
      let runTail := cs.takeWhile isUpperAscii
      let rest := cs.dropWhile isUpperAscii
      if 3 ≤ runTail.length + 1 then
        (c :: runTail.map Char.toLower) ++ softenCapsAux fuel rest
      else (c :: runTail) ++ softenCapsAux fuel rest
    else c :: softenCapsAux fuel cs

/-- `aiService.basicFilterUserResponse`. -/
def basicFilterUserResponse (response : String) : String :=
  let filtered1 := hostileWords.foldl (fun cs w => replaceHostileWord w cs) response.data
  let filtered2 := collapseRuns '!' '.' (filtered1.length + 1) filtered1
  let filtered3 := collapseRuns '?' '?' (filtered2.length + 1) filtered2
  let filtered4 := softenCapsAux (filtered3.length + 1) filtered3
  let filtered5 :=
    if 150 < filtered4.length then filtered4.take 147 ++ "...".data else filtered4
  let trimmedResult := jsTrim (String.mk filtered5)
  if trimmedResult = "" then "I\x27d like to discuss this matter regarding our child."
  else trimmedResult

/-! ## Outcomes of the external Content Transform collaborator

The OpenAI-backed operations of `aiService` are external calls; each webhook
event carries their outcome.  `none` models the call throwing. -/

/-- Result of `aiService.processMessage`. -/
structure AIProcessingResult where
  filteredMessage : String
  responseOptions : String × String × String
  messageType : String
deriving DecidableEq, Repr

/-- Result of `aiService.generateOutgoingMessageOptions`. -/
structure OutgoingOptionsResult where
  messageOptions : String × String × String
  messageType : String
deriving DecidableEq, Repr

/-- Result of `aiService.filterUserResponse` (which resolves rather than
throws: it converts its own failures into a basic-filter fallback). -/
structure FilterUserResponseResult where
  filteredResponse : String
  isAppropriate : Bool
deriving DecidableEq, Repr

/-- Result record of the webhook helper `filterCustomResponse`. -/
structure CustomFilterOutcome where
  response : String
  wasFiltered : Bool
deriving DecidableEq, Repr

/-- Webhook helper `filterCustomResponse`; `aiResult = none` models the
`aiService.filterUserResponse` call throwing, handled by the `catch` branch
with the basic filter. -/
def filterCustomResponse (customResponse : String)
    (aiResult : Option FilterUserResponseResult) : CustomFilterOutcome :=
  match aiResult with
  | some result =>
    if !result.isAppropriate then { response := "", wasFiltered := true }
    else
      { response := result.filteredResponse
        wasFiltered := result.filteredResponse ≠ jsTrim customResponse }
  | none =>
    let filtered := basicFilterUserResponse customResponse
    { response := filtered, wasFiltered := filtered ≠ jsTrim customResponse }

/-! ## Transport message texts (`twilioService` and webhook literals) -/

/-- The service (Twilio) phone number — environment configuration. -/
def twilioNumber : String := "+19998887777"

/-- `twilioService.sendErrorMessage` body. -/
def errorMessageText (errorMessage : String) : String :=
  "SafeTalk Error: " ++ errorMessage ++ "\n\nPlease try again or contact support."

/-- `twilioService.sendInvalidResponseMessage` body. -/
def invalidResponseText : String :=
  "Invalid response. Please reply with:\n- \"1\", \"2\", or \"3\" to select a response option\n- Or type your own custom response\n\nYour message will be sent after AI processing."

/-- Webhook literal sent when a custom reply is refused by moderation. -/
def inappropriateLanguageText : String :=
  "That message contains inappropriate language. Please select option 1, 2, or 3 from the previous message."

/-- Webhook literal confirmation after a successful relay. -/
def sentSuccessfullyText : String := "Message sent successfully."

/-- `SMSHelpers.getHelpMessage`. -/
def helpMessage : String :=
  "SafeTalk Help:\n\nHow to use:\n• Have your ex-partner text this number\n• You\x27ll receive filtered messages with 3 response options\n• Reply with \"1\", \"2\", or \"3\" to select a response\n• Or type your own custom response\n\nSetup:\n• Reply with your ex-partner\x27s phone number: +1234567890\n\nCommands:\n• \"help\" - Show this message\n• \"status\" - Show your account info\n• \"stop\" - Pause SafeTalk service\n\nNeed more help? Visit safetalk.com/support"

/-- `SMSHelpers.getStatusMessage`; wall-clock date rendering of the last
activity is abstracted as the decimal rendering of the stored order stamp. -/
def getStatusMessage (userPhone exPartnerPhone : String) (totalMessages : Nat)
    (lastActivity : Option Nat) : String :=
  let lastActivityText := match lastActivity with
    | some t => toString t
    | none => "No recent activity"
  "SafeTalk Status:\n\nYour number: " ++ userPhone ++ "\nEx-partner: " ++ exPartnerPhone ++
  "\nTotal messages processed: " ++ toString totalMessages ++
  "\nLast activity: " ++ lastActivityText ++ "\n\nService is active and filtering messages."

/-- `twilioService.formatFilteredMessageForSMS` (the `originalMessage`
parameter is unused in the source template as well). -/
def formatFilteredMessageForSMS (_originalMessage filteredMessage : String)
    (responseOptions : String × String × String) : String :=
  "SafeTalk Message: " ++ filteredMessage ++ "\n\nReply:\n1. " ++ responseOptions.1 ++
  "\n2. " ++ responseOptions.2.1 ++ "\n3. " ++ responseOptions.2.2 ++
  "\n\nOr type your own response"

/-- Modelled from the spec: the body rendered by
`twilioService.sendOutgoingMessageOptionsToClient`, whose implementation is
not among the provided sources (only its call site is).  Per §4.5 of the
specification it renders a greeting, a "here are 3 ways to send your message"
sentence, the numbered options, and a fixed instruction footer. -/
def outgoingOptionsBody (originalMessage : String)
    (messageOptions : String × String × String) (userName exPartnerName : Option String) :
    String :=
  let greeting := match userName with
    | some n => "Hi " ++ n
    | none => "Hi"
  let counterpart := match exPartnerName with
    | some n => n
    | none => "your co-parent"
  greeting ++ ", here are 3 ways to send your message to " ++ counterpart ++ ":\n\n1. " ++
  messageOptions.1 ++ "\n2. " ++ messageOptions.2.1 ++ "\n3. " ++ messageOptions.2.2 ++
  "\n\nReply with 1, 2, or 3, or type your own response.\n\nYour message: " ++ originalMessage

/-! ## Record Store model (`messages` and `response_options` tables) -/

/-- One row of the `messages` table. -/
structure MessageRow where
  id : Nat
  userId : Nat
  fromNumber : String
  toNumber : String
  originalText : String
  filteredText : Option String := none
  messageType : Option String := none
  direction : String
  status : String
  twilioMessageId : Option String := none
deriving DecidableEq, Repr

/-- The record store: rows in insertion order (`created_at` order), with a
monotone primary-key counter. -/
structure DB where
  messages : List MessageRow := []
  responseOptions : List ResponseOptions := []
  nextId : Nat := 1
deriving DecidableEq, Repr

/-- The registered Party (`users` table row, mapped as in
`userService.mapDatabaseToUser` plus the subscription fields read by the
webhook). -/
structure Party where
  id : Nat
  phoneNumber : String
  exPartnerPhone : String
  isActive : Bool := true
  userName : Option String := none
  exPartnerName : Option String := none
  subscriptionStatus : Option String := none
  hasActivatedService : Bool := false
deriving DecidableEq, Repr

/-- Append a message row, allocating the next primary key. -/
def DB.insertMessage (db : DB) (row : Nat → MessageRow) : DB :=
  { db with messages := db.messages ++ [row db.nextId], nextId := db.nextId + 1 }

/-- Append a reply-option row. -/
def DB.insertOptions (db : DB) (row : ResponseOptions) : DB :=
  { db with responseOptions := db.responseOptions ++ [row] }

/-- `... .eq('user_id', userId).eq('direction', dir).order('created_at',
{ascending: false}).limit(1).single()`: the most recent message of the given
direction for the given party. -/
def lastMessage (db : DB) (userId : Nat) (direction : String) : Option MessageRow :=
  (db.messages.filter fun m => m.userId == userId && m.direction == direction).getLast?

/-- `response_options .eq('message_id', mid).single()`: exactly one row, else
a PostgREST error, which every caller treats as "no data". -/
def singleOptionsFor (db : DB) (messageId : Nat) : Option ResponseOptions :=
  match db.responseOptions.filter (fun r => r.messageId == messageId) with
  | [r] => some r
  | _ => none

/-- Webhook helper `getLastResponseOptions`. -/
def getLastResponseOptions (db : DB) (userId : Nat) : Option ResponseOptions :=
  match lastMessage db userId "incoming" with
  | some recentMessage => singleOptionsFor db recentMessage.id
  | none => none

/-- Webhook helper `getLastOutgoingMessageOptions`. -/
def getLastOutgoingMessageOptions (db : DB) (userId : Nat) : Option ResponseOptions :=
  match lastMessage db userId "outgoing_intent" with
  | some recentMessage => singleOptionsFor db recentMessage.id
  | none => none

/-- Webhook helper `hasPendingIncomingOptions` (JavaScript `!x` truthiness on
the nullable text columns). -/
def hasPendingIncomingOptions (db : DB) (userId : Nat) : Bool :=
  match lastMessage db userId "incoming" with
  | none => false
  | some recentMessage =>
    match singleOptionsFor db recentMessage.id with
    | some responseOptions =>
      jsFalsy responseOptions.selectedResponse && jsFalsy responseOptions.customResponse
    | none => false

/-- Webhook helper `hasPendingOutgoingOptions`. -/
def hasPendingOutgoingOptions (db : DB) (userId : Nat) : Bool :=
  match lastMessage db userId "outgoing_intent" with
  | none => false
  | some recentMessage =>
    match singleOptionsFor db recentMessage.id with
    | some responseOptions =>
      jsFalsy responseOptions.selectedResponse && jsFalsy responseOptions.customResponse
    | none => false

/-- Webhook helper `hasPendingResponseOptions`. -/
def hasPendingResponseOptions (db : DB) (userId : Nat) : Bool :=
  hasPendingIncomingOptions db userId || hasPendingOutgoingOptions db userId

/-- Webhook helper `saveIncomingMessage`. -/
def saveIncomingMessage (db : DB) (userId : Nat) (fromPhone originalText : String)
    (aiResult : AIProcessingResult) (twilioSid : String) : DB :=
  db.insertMessage fun id =>
    { id := id
      userId := userId
      fromNumber := fromPhone
      toNumber := twilioNumber
      originalText := originalText
      filteredText := some aiResult.filteredMessage
      messageType := some aiResult.messageType
      direction := "incoming"
      status := "sent"
      twilioMessageId := some twilioSid }

/-- Webhook helper `saveUserResponse`. -/
def saveUserResponse (db : DB) (userId : Nat) (responseText : String)
    (twilioSid : Option String) : DB :=
  db.insertMessage fun id =>
    { id := id
      userId := userId
      fromNumber := twilioNumber
      toNumber := ""
      originalText := responseText
      direction := "outgoing"
      status := "sent"
      twilioMessageId := twilioSid }

/-- Webhook helper `saveResponseOptions`: attach an option row to the most
recent `incoming` message of the party, if any. -/
def saveResponseOptions (db : DB) (userId : Nat) (options : String × String × String) : DB :=
  match lastMessage db userId "incoming" with
  | some lastMsg =>
    db.insertOptions
      { messageId := lastMsg.id
        option1 := options.1
        option2 := options.2.1
        option3 := options.2.2 }
  | none => db

/-- Webhook helper `saveOutgoingMessageIntent`. -/
def saveOutgoingMessageIntent (db : DB) (userId : Nat) (originalText : String)
    (aiResult : OutgoingOptionsResult) (twilioSid : String) : DB :=
  db.insertMessage fun id =>
    { id := id
      userId := userId
      fromNumber := ""
      toNumber := ""
      originalText := originalText
      filteredText := none
      messageType := some (if aiResult.messageType = "" then "informational" else aiResult.messageType)
      direction := "outgoing_intent"
      status := "pending"
      twilioMessageId := some twilioSid }

/-- Webhook helper `saveOutgoingMessageOptions`: attach an option row to the
most recent `outgoing_intent` message of the party, if any. -/
def saveOutgoingMessageOptions (db : DB) (userId : Nat)
    (options : String × String × String) : DB :=
  match lastMessage db userId "outgoing_intent" with
  | some lastMsg =>
    db.insertOptions
      { messageId := lastMsg.id
        option1 := options.1
        option2 := options.2.1
        option3 := options.2.2 }
  | none => db

/-- `userService.getUserStats`, restricted to the fields the status command
actually renders (total message count and last-activity stamp). -/
def getUserStats (db : DB) (userId : Nat) : Nat × Option Nat :=
  let mine := db.messages.filter fun m => m.userId == userId
  (mine.length, (mine.getLast?).map (·.id))

/-! ## Party Registry lookup and subscription gate -/

/-- `userService.findUserByPhoneNumber`, for the single registered Party:
first match on the party's own phone, then on the counterpart phone, both
restricted to active rows.  The boolean records *which* role matched. -/
def findUserByPhoneNumber (u : Party) (phoneNumber : String) : Option (Party × Bool) :=
  let formattedPhone := formatPhoneNumber phoneNumber
  if u.isActive && u.phoneNumber == formattedPhone then some (u, true)
  else if u.isActive && u.exPartnerPhone == formattedPhone then some (u, false)
  else none

/-- Webhook helper `isValidSubscription` (JavaScript `!user.subscriptionStatus`
truthiness on the nullable column). -/
def isValidSubscription (user : Party) : Bool :=
  if jsFalsy user.subscriptionStatus then true
  else if user.subscriptionStatus ≠ some "active" then false
  else if !user.hasActivatedService then false
  else true

/-! ## Webhook flows (`api/webhooks/sms.js`)

Each handler returns the updated party row, the updated record store, and the
list of transport send *attempts* `(to, body)`.  The `sendOk` flag is the
transport oracle: when `false`, the first primary send attempt of the flow
throws after being attempted, and the flow's `catch` block runs (whose own
best-effort sends are modelled as succeeding). -/

/-- Append the `catch`-block send when the primary send failed. -/
def withCatch (sendOk : Bool) (catchSend : SMS) (attempts : List SMS) : List SMS :=
  if sendOk then attempts else attempts ++ [catchSend]

/-- Webhook helper `handleSpecialCommand`. -/
def handleSpecialCommand (user : Party) (db : DB) (command : Option Command)
    (sendOk : Bool) : Party × DB × List SMS :=
  let commandFailed : SMS := (user.phoneNumber, errorMessageText "Command failed. Please try again.")
  match command with
  | some .help =>
    (user, db, withCatch sendOk commandFailed [(user.phoneNumber, helpMessage)])
  | some .status =>
    let stats := getUserStats db user.id
    let statusMessage := getStatusMessage user.phoneNumber user.exPartnerPhone stats.1 stats.2
    (user, db, withCatch sendOk commandFailed [(user.phoneNumber, statusMessage)])
  | some .stop =>
    ({ user with isActive := false }, db,
     withCatch sendOk commandFailed
       [(user.phoneNumber, "SafeTalk service paused. Text \"start\" to resume.")])
  | some .start =>
    (user, db, withCatch sendOk commandFailed [(user.phoneNumber, "SafeTalk service resumed.")])
  | none => (user, db, [])

/-- The tail of `handleUserResponse` once a final response text is resolved:
send to the counterpart, persist the `outgoing` record, confirm to the client
(`catch`: error message, nothing persisted). -/
def relayFinalResponse (user : Party) (db : DB) (finalResponse : String) (sendOk : Bool) :
    Party × DB × List SMS :=
  if sendOk then
    (user, saveUserResponse db user.id finalResponse (some "sid"),
     [(user.exPartnerPhone, finalResponse), (user.phoneNumber, sentSuccessfullyText)])
  else
    (user, db,
     [(user.exPartnerPhone, finalResponse),
      (user.phoneNumber, errorMessageText "Failed to send response. Please try again.")])

/-- Webhook flow `handleUserResponse` (client reply while options are pending). -/
def handleUserResponse (user : Party) (db : DB) (responseBody : String)
    (modOutcome : Option FilterUserResponseResult) (sendOk : Bool) : Party × DB × List SMS :=
  let failedSend : SMS := (user.phoneNumber, errorMessageText "Failed to send response. Please try again.")
  let sc := parseSpecialCommands responseBody
  if sc.isCommand then handleSpecialCommand user db sc.command sendOk
  else
    let parseResult := parseUserResponse responseBody
    if !parseResult.isValidResponse then
      (user, db, withCatch sendOk failedSend [(user.phoneNumber, invalidResponseText)])
    else
      match parseResult.selectedOption with
      | some selectedOption =>
        let responseOptions := getLastResponseOptions db user.id
        let outgoingOptions := getLastOutgoingMessageOptions db user.id
        match outgoingOptions with
        | some oo =>
          relayFinalResponse user db ((getSelectedResponseText oo selectedOption).getD "") sendOk
        | none =>
          match responseOptions with
          | some ro =>
            relayFinalResponse user db ((getSelectedResponseText ro selectedOption).getD "") sendOk
          | none =>
            (user, db, withCatch sendOk failedSend
              [(user.phoneNumber, errorMessageText "No recent message to respond to")])
      | none =>
        match parseResult.customResponse with
        | some customResponse =>
          let filterResult := filterCustomResponse customResponse modOutcome
          if filterResult.response = "" then
            (user, db, withCatch sendOk failedSend [(user.phoneNumber, inappropriateLanguageText)])
          else relayFinalResponse user db filterResult.response sendOk
        | none =>
          (user, db, withCatch sendOk failedSend [(user.phoneNumber, invalidResponseText)])

/-- Webhook flow `handleClientInitiatedMessage` (client initiates, no pending
options). -/
def handleClientInitiatedMessage (user : Party) (db : DB) (messageBody messageSid : String)
    (genOutcome : Option OutgoingOptionsResult) (sendOk : Bool) : Party × DB × List SMS :=
  let processFailed : SMS :=
    (user.phoneNumber, errorMessageText "Failed to process your message. Please try again.")
  let sc := parseSpecialCommands messageBody
  if sc.isCommand then handleSpecialCommand user db sc.command sendOk
  else
    let validation := validateMessageContent messageBody
    if !validation.isValid then
      (user, db, withCatch sendOk processFailed
        [(user.phoneNumber, errorMessageText ("Invalid message: " ++ validation.error.getD ""))])
    else
      match genOutcome with
      | none => (user, db, [processFailed])
      | some aiResult =>
        let db1 := saveOutgoingMessageIntent db user.id messageBody aiResult messageSid
        let attempt : SMS :=
          (user.phoneNumber,
           outgoingOptionsBody messageBody aiResult.messageOptions user.userName user.exPartnerName)
        if sendOk then
          (user, saveOutgoingMessageOptions db1 user.id aiResult.messageOptions, [attempt])
        else
          (user, db1, [attempt, processFailed])

/-- Webhook flow `handleExPartnerMessage` (inbound filtering).  Content
invalid: dropped silently.  Content Transform failure (`aiOutcome = none`) or
transport failure: caught and logged only — the `catch` block sends nothing. -/
def handleExPartnerMessage (user : Party) (db : DB) (fromPhone messageBody messageSid : String)
    (aiOutcome : Option AIProcessingResult) (sendOk : Bool) : DB × List SMS :=
  let validation := validateMessageContent messageBody
  if !validation.isValid then (db, [])
  else
    match aiOutcome with
    | none => (db, [])
    | some aiResult =>
      let db1 := saveIncomingMessage db user.id fromPhone messageBody aiResult messageSid
      let attempt : SMS :=
        (user.phoneNumber,
         formatFilteredMessageForSMS messageBody aiResult.filteredMessage aiResult.responseOptions)
      if sendOk then (saveResponseOptions db1 user.id aiResult.responseOptions, [attempt])
      else (db1, [attempt])

/-! ### New-user and gated flows (send-only; no record-store writes) -/

def newUserWelcomeMessage : String :=
  "👋 Welcome to SafeTalk!\n\nSafeTalk provides professional co-parenting coordination through AI-filtered SMS messaging.\n\nTo get started:\n1. Subscribe at: https://safetalk-coparents.vercel.com\n2. Both co-parents text \"START\" to activate service\n3. Begin communicating through SafeTalk for better co-parenting\n\n💰 Only $50/month for unlimited professional messaging support\n\nQuestions? Reply HELP"

def legacySetupMessage (userName exPartnerName : Option String) (exPartnerPhone : String) :
    String :=
  "Setup detected, but SafeTalk now requires subscription first.\n\nPlease visit https://safetalk-coparents.vercel.com to subscribe and set up your service properly.\n\nYour information:\n• Your name: " ++
  (if jsFalsy userName then "Not provided" else userName.getD "") ++
  "\n• Co-parent: " ++
  (if jsFalsy exPartnerName then "Not provided" else exPartnerName.getD "") ++
  " (" ++ exPartnerPhone ++ ")\n\nAfter subscribing, both parties text \"START\" to activate."

def activationMessage (phoneNumber : String) : String :=
  "✅ SafeTalk activated for " ++ phoneNumber ++
  "!\n\nYour co-parenting communication service is now active. All messages will be filtered through AI to promote respectful dialogue.\n\n• Messages from your co-parent will be filtered and you\x27ll get response options\n• Your messages will be reviewed before sending\n• Professional mediation available 24/7\n\nStart communicating through this SafeTalk number for better co-parenting! 👨‍👩‍👧‍👦"

def subscriptionRequiredMessage : String :=
  "🔒 SafeTalk Subscription Required\n\nTo use SafeTalk\x27s professional co-parenting coordination service, please visit:\n\nhttps://safetalk-coparents.vercel.com\n\n• Monthly subscription: $50\n• Unlimited AI-filtered messaging  \n• 24/7 conflict resolution support\n• Professional response suggestions\n\nAfter subscribing, both co-parents must text \"START\" to activate the service.\n\nQuestions? Reply HELP"

/-- Webhook flow `handleNewUser` (sender matches no active Party; sends only,
never writes the record store or the registry). -/
def handleNewUser (phoneNumber messageBody : String) (sendOk : Bool) : List SMS :=
  let setupFailed : SMS := (phoneNumber, errorMessageText "Setup failed. Please try again.")
  let sc := parseSpecialCommands messageBody
  if sc.isCommand ∧ sc.command = some .help then
    withCatch sendOk setupFailed [(phoneNumber, helpMessage)]
  else if !sendOk then
    [(phoneNumber, newUserWelcomeMessage), setupFailed]
  else
    let setup := parseSetupMessage messageBody
    if setup.isSetupMessage ∧ ¬(jsFalsy setup.exPartnerPhone) then
      [(phoneNumber, newUserWelcomeMessage),
       (phoneNumber,
        legacySetupMessage setup.userName setup.exPartnerName (setup.exPartnerPhone.getD ""))]
    else
      match setup.error with
      | some e => [(phoneNumber, newUserWelcomeMessage), (phoneNumber, errorMessageText e)]
      | none => [(phoneNumber, newUserWelcomeMessage)]

/-- Webhook flow `handleSubscriptionRequired` (Party found but gate failed). -/
def handleSubscriptionRequired (registry : Party) (phoneNumber messageBody : String) :
    Party × List SMS :=
  let sc := parseSpecialCommands messageBody
  if sc.isCommand ∧ sc.command = some .help then
    (registry, [(phoneNumber, helpMessage)])
  else if sc.isCommand ∧ sc.command = some .start then
    match findUserByPhoneNumber registry phoneNumber with
    | some (user, _) =>
      if user.subscriptionStatus = some "active" ∧ ¬user.hasActivatedService then
        ({ registry with hasActivatedService := true },
         [(phoneNumber, activationMessage phoneNumber)])
      else (registry, [(phoneNumber, subscriptionRequiredMessage)])
    | none => (registry, [(phoneNumber, subscriptionRequiredMessage)])
  else (registry, [(phoneNumber, subscriptionRequiredMessage)])

/-! ### The webhook handler -/

/-- One inbound webhook invocation: the parsed payload plus the outcomes of
the external collaborators consulted during this invocation. -/
structure WebhookEvent where
  fromPhone : String
  body : String
  messageSid : String := "SM0"
  aiProcess : Option AIProcessingResult := none
  aiGenerate : Option OutgoingOptionsResult := none
  aiModerate : Option FilterUserResponseResult := none
  sendOk : Bool := true
deriving Repr

/-- Whole-system state: the single registered Party and the record store. -/
structure Sys where
  user : Party
  db : DB
deriving DecidableEq, Repr

/-- The webhook `handler` (after payload parsing and signature validation):
registry lookup, subscription gate, then dispatch on sender role and
pending-options state. -/
def webhookStep (st : Sys) (ev : WebhookEvent) : Sys × List SMS :=
  match findUserByPhoneNumber st.user ev.fromPhone with
  | none => (st, handleNewUser ev.fromPhone ev.body ev.sendOk)
  | some (user, isUserPhone) =>
    if !isValidSubscription user then
      let r := handleSubscriptionRequired st.user ev.fromPhone ev.body
      ({ st with user := r.1 }, r.2)
    else if isUserPhone then
      if hasPendingResponseOptions st.db user.id then
        let r := handleUserResponse user st.db ev.body ev.aiModerate ev.sendOk
        (⟨r.1, r.2.1⟩, r.2.2)
      else
        let r := handleClientInitiatedMessage user st.db ev.body ev.messageSid ev.aiGenerate ev.sendOk
        (⟨r.1, r.2.1⟩, r.2.2)
    else
      let r := handleExPartnerMessage user st.db ev.fromPhone ev.body ev.messageSid ev.aiProcess ev.sendOk
      (⟨st.user, r.1⟩, r.2)

/-- Run a sequence of webhook invocations from a starting state. -/
def runWebhook (st : Sys) (evs : List WebhookEvent) : Sys :=
  evs.foldl (fun s e => (webhookStep s e).1) st

/-! ## Party Registry setup (`userService.isValidPhonePair` / `setupNewUser`)

`isValidPhonePair` is an `async` method, so its call returns a `Promise`
object.  `setupNewUser` tests `!this.isValidPhonePair(...)` *without*
awaiting, i.e. it tests the truthiness of the `Promise` object itself, which
is always truthy in JavaScript.  The embedding keeps that wrapper explicit. -/

/-- A JavaScript `Promise` object holding its eventual value. -/
structure JsPromise (α : Type) where
  val : α
deriving DecidableEq, Repr

/-- JavaScript truthiness of a `Promise` object: every object is truthy. -/
def jsPromiseTruthy {α : Type} (_p : JsPromise α) : Bool := true

/-- `userService.isValidPhonePair` (an `async` method: returns a `Promise`). -/
def isValidPhonePair (userPhone exPartnerPhone : String) : JsPromise Bool :=
  ⟨ let formattedUserPhone := formatPhoneNumber userPhone
    let formattedExPhone := formatPhoneNumber exPartnerPhone
    if formattedUserPhone = formattedExPhone then false
    else if !(isValidPhoneNumber formattedUserPhone) || !(isValidPhoneNumber formattedExPhone)
      then false
    else true ⟩

/-- One row of the `users` table as written by `userService`. -/
structure UserRow where
  phoneNumber : String
  exPartnerPhone : String
  serviceNumber : String
  isActive : Bool
  userName : Option String := none
  exPartnerName : Option String := none
deriving DecidableEq, Repr

/-- `userService.createOrUpdateUser` over the `users` table. -/
def createOrUpdateUser (registry : List UserRow)
    (userPhone exPartnerPhone serviceNum : String) (userName exPartnerName : Option String) :
    List UserRow :=
  let formattedUserPhone := formatPhoneNumber userPhone
  let formattedExPhone := formatPhoneNumber exPartnerPhone
  let formattedServiceNum := formatPhoneNumber serviceNum
  if registry.any (·.phoneNumber == formattedUserPhone) then
    registry.map fun row =>
      if row.phoneNumber == formattedUserPhone then
        { row with
          exPartnerPhone := formattedExPhone
          serviceNumber := formattedServiceNum
          isActive := true
          userName := if jsFalsy userName then row.userName else userName
          exPartnerName := if jsFalsy exPartnerName then row.exPartnerName else exPartnerName }
      else row
  else
    registry ++
      [{ phoneNumber := formattedUserPhone
         exPartnerPhone := formattedExPhone
         serviceNumber := formattedServiceNum
         isActive := true
         userName := if jsFalsy userName then none else userName
         exPartnerName := if jsFalsy exPartnerName then none else exPartnerName }]

/-- `twilioService.sendSetupConfirmation` body. -/
def setupConfirmationText (userPhone exPartnerPhone serviceNum : String) : String :=
  "SafeTalk Setup Complete! ✓\n\nYour number: " ++ userPhone ++
  "\nEx-partner\x27s number: " ++ exPartnerPhone ++ "\nSafeTalk service: " ++ serviceNum ++
  "\n\nBoth of you should now text " ++ serviceNum ++
  " to communicate through SafeTalk. All messages will be filtered for constructive co-parenting communication."

/-- Result of `userService.setupNewUser`: outcome, the `users` table after the
call, and the confirmation send attempts. -/
structure SetupNewUserOutcome where
  success : Bool
  error : Option String := none
  registry : List UserRow
  sends : List SMS := []
deriving DecidableEq, Repr

/-- `userService.setupNewUser`.  The source guard is
`if (!this.isValidPhonePair(userPhone, exPartnerPhone))` with no `await`: the
embedded guard therefore tests the truthiness of the `Promise` object. -/
def setupNewUser (registry : List UserRow) (userPhone exPartnerPhone : String)
    (userName exPartnerName : Option String) : SetupNewUserOutcome :=
  if !(jsPromiseTruthy (isValidPhonePair userPhone exPartnerPhone)) then
    { success := false
      error := some "Invalid phone numbers. Please check the format and ensure they are different."
      registry := registry }
  else
    let registry2 :=
      createOrUpdateUser registry userPhone exPartnerPhone twilioNumber userName exPartnerName
    { success := true
      registry := registry2
      sends := [(userPhone, setupConfirmationText userPhone exPartnerPhone twilioNumber)] }

/-! ## Sample data shared by concrete witnesses -/

/-- A registered, active Party with no subscription metadata. -/
def sampleParty : Party :=
  { id := 1, phoneNumber := "+15550001111", exPartnerPhone := "+15550002222" }

/-- A record store holding one incoming message with an unresolved reply
option set. -/
def pendingIncomingDB : DB :=
  { messages :=
      [{ id := 1, userId := 1, fromNumber := "+15550002222", toNumber := twilioNumber,
         originalText := "original text", filteredText := some "filtered text",
         messageType := some "informational", direction := "incoming", status := "sent",
         twilioMessageId := some "SM1" }]
    responseOptions := [{ messageId := 1, option1 := "A1", option2 := "A2", option3 := "A3" }]
    nextId := 2 }

/-- A record store where both an incoming and an outgoing-intent reply option
set are unresolved. -/
def bothPendingDB : DB :=
  { messages :=
      [{ id := 1, userId := 1, fromNumber := "+15550002222", toNumber := twilioNumber,
         originalText := "original text", filteredText := some "filtered text",
         messageType := some "informational", direction := "incoming", status := "sent",
         twilioMessageId := some "SM1" },
       { id := 2, userId := 1, fromNumber := "", toNumber := "",
         originalText := "draft text", filteredText := none,
         messageType := some "informational", direction := "outgoing_intent",
         status := "pending", twilioMessageId := some "SM2" }]
    responseOptions :=
      [{ messageId := 1, option1 := "A1", option2 := "A2", option3 := "A3" },
       { messageId := 2, option1 := "B1", option2 := "B2", option3 := "B3" }]
    nextId := 3 }

/-! ## Helper lemmas about the reply parser -/

theorem parseUserResponse_selected_shape {s : String} {n : Nat}
    (h : (parseUserResponse s).selectedOption = some n) :
    (parseUserResponse s).isValidResponse = true ∧
    (parseUserResponse s).customResponse = none := by
  unfold parseUserResponse at h ⊢
  dsimp only at h ⊢
  split_ifs at h ⊢
  all_goals simp_all

theorem parseUserResponse_custom_shape {s : String} {c : String}
    (h : (parseUserResponse s).customResponse = some c) :
    (parseUserResponse s).isValidResponse = true ∧
    (parseUserResponse s).selectedOption = none := by
  unfold parseUserResponse at h ⊢
  dsimp only at h ⊢
  split_ifs at h ⊢
  all_goals simp_all

/-! ## C10 — absent subscription state bypasses the gate -/

/-- C10: for every Party whose subscription state is absent, the subscription
gate returns `true` and the webhook dispatches to the normal message flows
(even with `hasActivatedService = false`); the activation flag is consulted
only when the subscription state equals `active`: for any other state the
gate's verdict is independent of the flag. -/
theorem isValidSubscription_absent_bypasses_gate (u : Party)
    (hnone : u.subscriptionStatus = none) :
    isValidSubscription u = true
    ∧ (∀ (db : DB) (ev : WebhookEvent),
        findUserByPhoneNumber u ev.fromPhone = some (u, true) →
        webhookStep ⟨u, db⟩ ev =
          (if hasPendingResponseOptions db u.id then
            (let r := handleUserResponse u db ev.body ev.aiModerate ev.sendOk
             (⟨r.1, r.2.1⟩, r.2.2))
          else
            (let r := handleClientInitiatedMessage u db ev.body ev.messageSid ev.aiGenerate ev.sendOk
             (⟨r.1, r.2.1⟩, r.2.2))))
    ∧ (∀ (v : Party) (b : Bool), v.subscriptionStatus ≠ some "active" →
        isValidSubscription { v with hasActivatedService := b } = isValidSubscription v) := by
  refine ⟨by simp [isValidSubscription, hnone, jsFalsy], ?_, ?_⟩
  · intro db ev hfind
    simp [webhookStep, hfind, isValidSubscription, hnone, jsFalsy]
  · intro v b hne
    unfold isValidSubscription
    rcases hv : v.subscriptionStatus with _ | s
    · simp [jsFalsy]
    · have hsa : s ≠ "active" := fun h => hne (hv.trans (by rw [h]))
      by_cases hs : s = ""
      · simp [jsFalsy, hv, hs]
      · simp [jsFalsy, hv, hs, hsa]

/-- Witness for C10 at a concrete Party. -/
theorem isValidSubscription_absent_bypasses_gate_witness :
    sampleParty.subscriptionStatus = none ∧
    sampleParty.hasActivatedService = false ∧
    isValidSubscription sampleParty = true :=
  ⟨rfl, rfl, (isValidSubscription_absent_bypasses_gate sampleParty rfl).1⟩

/-! ## C5 — setup validation (missing `await`) never rejects -/

/-- C5 (claim refuted by the code): `setupNewUser` is supposed to reject a
request whose two phones are equal before any write, but its guard tests the
truthiness of the un-awaited `Promise` returned by the `async`
`isValidPhonePair`, which is always truthy, so the write proceeds even though
`isValidPhonePair` would resolve to `false`. -/
theorem setupNewUser_guard_never_fires :
    (isValidPhonePair "+15551234567" "+15551234567").val = false
    ∧ (setupNewUser [] "+15551234567" "+15551234567" none none).success = true
    ∧ (setupNewUser [] "+15551234567" "+15551234567" none none).registry ≠ []
    ∧ (∀ (registry : List UserRow) (a b : String) (n₁ n₂ : Option String),
        (setupNewUser registry a b n₁ n₂).success = true) := by
  refine ⟨by decide, by decide, by decide, ?_⟩
  intro registry a b n₁ n₂
  simp [setupNewUser, jsPromiseTruthy]

/-! ## C4 — moderation refusal blocks the relay -/

/-- C4: when the moderate-custom-reply operation refuses a pending custom
reply, the resolver tells the client to pick option 1, 2 or 3, every send of
the flow goes to the client (none to the counterpart), and the record store is
unchanged (no outgoing Message Record). -/
theorem moderation_refusal_blocks_relay (user : Party) (db : DB) (body c : String)
    (mr : FilterUserResponseResult) (sendOk : Bool)
    (_hpending : hasPendingResponseOptions db user.id = true)
    (hdistinct : user.exPartnerPhone ≠ user.phoneNumber)
    (hcmd : (parseSpecialCommands body).isCommand = false)
    (hcustom : (parseUserResponse body).customResponse = some c)
    (hrefuse : mr.isAppropriate = false) :
    (handleUserResponse user db body (some mr) sendOk).2.1 = db
    ∧ ((handleUserResponse user db body (some mr) sendOk).2.2).head? =
        some (user.phoneNumber, inappropriateLanguageText)
    ∧ ∀ x ∈ (handleUserResponse user db body (some mr) sendOk).2.2,
        x.1 = user.phoneNumber ∧ x.1 ≠ user.exPartnerPhone := by
  obtain ⟨hvalid, hsel⟩ := parseUserResponse_custom_shape hcustom
  have hrel : handleUserResponse user db body (some mr) sendOk =
      (user, db, withCatch sendOk
        (user.phoneNumber, errorMessageText "Failed to send response. Please try again.")
        [(user.phoneNumber, inappropriateLanguageText)]) := by
    unfold handleUserResponse
    simp [hcmd, hvalid, hsel, hcustom, filterCustomResponse, hrefuse]
  rw [hrel]
  have hne : user.phoneNumber ≠ user.exPartnerPhone := fun h => hdistinct h.symm
  cases sendOk
  · refine ⟨rfl, rfl, ?_⟩
    intro x hx
    simp [withCatch] at hx
    rcases hx with h | h
    all_goals simp [h, hne]
  · refine ⟨rfl, rfl, ?_⟩
    intro x hx
    simp [withCatch] at hx
    simp [hx, hne]

/-- Witness for C4 at concrete inputs. -/
theorem moderation_refusal_blocks_relay_witness :
    (handleUserResponse sampleParty pendingIncomingDB "You are useless, fix it yourself"
        (some { filteredResponse := "", isAppropriate := false }) true).2.1 = pendingIncomingDB :=
  (moderation_refusal_blocks_relay sampleParty pendingIncomingDB
    "You are useless, fix it yourself" "You are useless, fix it yourself"
    { filteredResponse := "", isAppropriate := false } true
    (by decide) (by decide) (by decide) (by decide) (by decide)).1

/-! ## C8 — special commands pre-empt option selection and custom replies -/

theorem handleSpecialCommand_sends_to_client (user : Party) (db : DB)
    (command : Option Command) (sendOk : Bool) :
    ∀ x ∈ (handleSpecialCommand user db command sendOk).2.2, x.1 = user.phoneNumber := by
  intro x hx
  rcases command with _ | c
  · simp [handleSpecialCommand] at hx
  · cases c
    all_goals cases sendOk
    all_goals simp [handleSpecialCommand, withCatch] at hx
    all_goals first
      | (rcases hx with h | h
         all_goals simp [h])
      | simp [hx]

/-- C8: an input whose trimmed, lower-cased form is one of the ten command
words is dispatched as that command by both client flows — the reply-resolution
flow and the client-initiation flow both reduce to `handleSpecialCommand` —
and every send of the command handler goes to the client, never to the
counterpart. -/
theorem special_commands_preempt (user : Party) (db : DB) (body messageSid : String)
    (modOutcome : Option FilterUserResponseResult) (genOutcome : Option OutgoingOptionsResult)
    (sendOk : Bool)
    (h : jsToLower (jsTrim body) ∈
      ["help", "?", "status", "info", "stop", "pause", "disable", "start", "resume", "enable"]) :
    (parseSpecialCommands body).isCommand = true
    ∧ handleUserResponse user db body modOutcome sendOk =
        handleSpecialCommand user db (parseSpecialCommands body).command sendOk
    ∧ handleClientInitiatedMessage user db body messageSid genOutcome sendOk =
        handleSpecialCommand user db (parseSpecialCommands body).command sendOk
    ∧ ∀ x ∈ (handleSpecialCommand user db (parseSpecialCommands body).command sendOk).2.2,
        x.1 = user.phoneNumber := by
  have hcmd : (parseSpecialCommands body).isCommand = true := by
    simp only [List.mem_cons, List.not_mem_nil, or_false] at h
    unfold parseSpecialCommands
    dsimp only
    rcases h with h | h | h | h | h | h | h | h | h | h
    all_goals simp [h]
  refine ⟨hcmd, ?_, ?_, handleSpecialCommand_sends_to_client user db _ sendOk⟩
  · unfold handleUserResponse
    simp [hcmd]
  · unfold handleClientInitiatedMessage
    simp [hcmd]

/-- Witness for C8: the literal input `"help"`. -/
theorem special_commands_preempt_witness :
    (parseSpecialCommands "help").isCommand = true ∧
    handleUserResponse sampleParty pendingIncomingDB "help" none true =
      handleSpecialCommand sampleParty pendingIncomingDB (parseSpecialCommands "help").command true :=
  ⟨(special_commands_preempt sampleParty pendingIncomingDB "help" "SM0" none none true
      (by decide)).1,
   (special_commands_preempt sampleParty pendingIncomingDB "help" "SM0" none none true
      (by decide)).2.1⟩

/-! ## C6 — the inbound-filtering flow never texts the counterpart -/

/-- C6: in `handleExPartnerMessage` every transport attempt targets the
client's phone and never the counterpart's; on content-validation failure the
message is dropped silently (no record, no send); on Content Transform failure
the flow is likewise silent (no record, no send); on Transport failure nothing
further is sent (the `catch` only logs). -/
theorem inbound_flow_never_texts_counterpart (user : Party) (db : DB)
    (fromPhone messageBody messageSid : String) (aiOutcome : Option AIProcessingResult)
    (sendOk : Bool) (hne : fromPhone ≠ user.phoneNumber) :
    (∀ x ∈ (handleExPartnerMessage user db fromPhone messageBody messageSid aiOutcome sendOk).2,
        x.1 = user.phoneNumber ∧ x.1 ≠ fromPhone)
    ∧ ((validateMessageContent messageBody).isValid = false →
        handleExPartnerMessage user db fromPhone messageBody messageSid aiOutcome sendOk =
          (db, []))
    ∧ (aiOutcome = none →
        handleExPartnerMessage user db fromPhone messageBody messageSid aiOutcome sendOk =
          (db, [])) := by
  have hne' : user.phoneNumber ≠ fromPhone := fun h => hne h.symm
  unfold handleExPartnerMessage
  by_cases hv : (validateMessageContent messageBody).isValid
  · rcases aiOutcome with _ | ai
    · simp [hv]
    · cases sendOk
      all_goals simp [hv, hne']
  · simp [Bool.not_eq_true] at hv
    simp [hv]

/-- Witness for C6 at concrete inputs: an empty counterpart message fails
content validation and is dropped silently. -/
theorem inbound_flow_never_texts_counterpart_witness :
    handleExPartnerMessage sampleParty {} "+15550002222" "" "SM1"
      (some { filteredMessage := "Hello", responseOptions := ("o1", "o2", "o3"),
              messageType := "informational" }) true = ({}, []) :=
  (inbound_flow_never_texts_counterpart sampleParty {} "+15550002222" "" "SM1"
    (some { filteredMessage := "Hello", responseOptions := ("o1", "o2", "o3"),
            messageType := "informational" }) true (by decide)).2.1 (by decide)

/-! ## C1 — precedence between the two pending option classes -/

/-- C1 (claim refuted): with both an unresolved incoming and an unresolved
outgoing_intent option set pending, the numeric selection "2" is resolved
against the *outgoing_intent* set: the text sent to the counterpart is the
stored outgoing_intent option "B2", not the stored incoming option "A2". -/
theorem numeric_selection_incoming_precedence_counterexample :
    hasPendingIncomingOptions bothPendingDB 1 = true
    ∧ hasPendingOutgoingOptions bothPendingDB 1 = true
    ∧ (parseUserResponse "2").selectedOption = some 2
    ∧ (getLastResponseOptions bothPendingDB 1).map (fun r => getSelectedResponseText r 2) =
        some (some "A2")
    ∧ (handleUserResponse sampleParty bothPendingDB "2" none true).2.2.head? =
        some (sampleParty.exPartnerPhone, "B2")
    ∧ ("B2" : String) ≠ "A2" := by
  decide

/-- C1 amended: when both an unresolved incoming and an unresolved
outgoing_intent option set exist, a numeric selection is resolved against the
*outgoing_intent* set — the self-initiated choice takes precedence over the
pending reply to the counterpart, and the text sent to the counterpart is the
stored outgoing_intent option. -/
theorem numeric_selection_resolves_against_outgoing_intent (user : Party) (db : DB)
    (body : String) (modOutcome : Option FilterUserResponseResult)
    (oo : ResponseOptions) (n : Nat)
    (_hpi : hasPendingIncomingOptions db user.id = true)
    (_hpo : hasPendingOutgoingOptions db user.id = true)
    (hcmd : (parseSpecialCommands body).isCommand = false)
    (hsel : (parseUserResponse body).selectedOption = some n)
    (hoo : getLastOutgoingMessageOptions db user.id = some oo) :
    (handleUserResponse user db body modOutcome true).2.2 =
      [(user.exPartnerPhone, (getSelectedResponseText oo n).getD ""),
       (user.phoneNumber, sentSuccessfullyText)] := by
  obtain ⟨hvalid, hcust⟩ := parseUserResponse_selected_shape hsel
  unfold handleUserResponse
  simp [hcmd, hvalid, hsel, hcust, hoo, relayFinalResponse]

/-- Witness for the amended C1 at concrete inputs. -/
theorem numeric_selection_resolves_against_outgoing_intent_witness :
    (handleUserResponse sampleParty bothPendingDB "2" none true).2.2 =
      [(sampleParty.exPartnerPhone,
        (getSelectedResponseText
          { messageId := 2, option1 := "B1", option2 := "B2", option3 := "B3" } 2).getD ""),
       (sampleParty.phoneNumber, sentSuccessfullyText)] :=
  numeric_selection_resolves_against_outgoing_intent sampleParty bothPendingDB "2" none
    { messageId := 2, option1 := "B1", option2 := "B2", option3 := "B3" } 2
    (by decide) (by decide) (by decide) (by decide) (by decide)

/-! ## C2 — the resolved Reply Option Set is never marked resolved -/

/-- C2 (code bug): resolving a pending numeric selection sends the stored
option text to the counterpart, persists an `outgoing` Message Record and
confirms to the client — but no write ever populates the option set's
selected-response field: the `response_options` rows are unchanged and the
incoming option set still counts as pending afterwards. -/
theorem resolved_option_set_never_marked :
    (webhookStep ⟨sampleParty, pendingIncomingDB⟩
        { fromPhone := "+15550001111", body := "2" }).2 =
      [(sampleParty.exPartnerPhone, "A2"), (sampleParty.phoneNumber, sentSuccessfullyText)]
    ∧ ((webhookStep ⟨sampleParty, pendingIncomingDB⟩
        { fromPhone := "+15550001111", body := "2" }).1.db.messages.filter
          (fun m => m.direction == "outgoing")).length = 1
    ∧ (webhookStep ⟨sampleParty, pendingIncomingDB⟩
        { fromPhone := "+15550001111", body := "2" }).1.db.responseOptions =
        pendingIncomingDB.responseOptions
    ∧ (∀ r ∈ (webhookStep ⟨sampleParty, pendingIncomingDB⟩
        { fromPhone := "+15550001111", body := "2" }).1.db.responseOptions,
        r.selectedResponse = none ∧ r.customResponse = none)
    ∧ hasPendingIncomingOptions
        (webhookStep ⟨sampleParty, pendingIncomingDB⟩
          { fromPhone := "+15550001111", body := "2" }).1.db 1 = true := by
  decide

/-! ## C3 — unresolved option sets per direction class -/

/-- Number of unresolved Reply Option Sets attached to messages of the given
party and direction class. -/
def unresolvedCount (db : DB) (userId : Nat) (direction : String) : Nat :=
  (db.responseOptions.filter fun r =>
    jsFalsy r.selectedResponse && jsFalsy r.customResponse &&
    ((db.messages.filter fun m => m.userId == userId && m.direction == direction).map
      (·.id)).contains r.messageId).length

/-- A webhook invocation carrying a counterpart message that passes content
validation, with a successful Content Transform outcome. -/
def exPartnerEvent : WebhookEvent :=
  { fromPhone := "+15550002222", body := "Hello there",
    aiProcess := some { filteredMessage := "Hello", responseOptions := ("o1", "o2", "o3"),
                        messageType := "informational" } }

/-- C3 (claim refuted): two consecutive counterpart messages yield a reachable
record-store state with *two* unresolved Reply Option Sets in the `incoming`
direction class for the same Party. -/
theorem per_party_unresolved_uniqueness_counterexample :
    unresolvedCount (runWebhook ⟨sampleParty, {}⟩ [exPartnerEvent, exPartnerEvent]).db
        1 "incoming" = 2
    ∧ ¬(unresolvedCount (runWebhook ⟨sampleParty, {}⟩ [exPartnerEvent, exPartnerEvent]).db
        1 "incoming" ≤ 1) := by
  decide

/-! ### The invariant that does hold: one option set per Message Record -/

/-- Record-store well-formedness: key bounds plus at most one option row per
message. -/
def DBInv (db : DB) : Prop :=
  (∀ r ∈ db.responseOptions, r.messageId < db.nextId) ∧
  (∀ m ∈ db.messages, m.id < db.nextId) ∧
  db.responseOptions.Pairwise (fun a b => a.messageId ≠ b.messageId)

theorem dbInv_empty : DBInv {} := by
  refine ⟨?_, ?_, ?_⟩ <;> simp

theorem dbInv_insertMessage (db : DB) (f : Nat → MessageRow)
    (hf : (f db.nextId).id = db.nextId) (h : DBInv db) : DBInv (db.insertMessage f) := by
  obtain ⟨h1, h2, h3⟩ := h
  refine ⟨?_, ?_, ?_⟩
  · intro r hr
    exact Nat.lt_trans (h1 r hr) (Nat.lt_succ_self _)
  · intro m hm
    simp only [DB.insertMessage, List.mem_append, List.mem_singleton] at hm
    rcases hm with hm | hm
    · exact Nat.lt_trans (h2 m hm) (Nat.lt_succ_self _)
    · rw [hm, hf]
      exact Nat.lt_succ_self _
  · simpa [DB.insertMessage] using h3

theorem lastMessage_insertMessage_match (db : DB) (f : Nat → MessageRow)
    (uid : Nat) (dir : String)
    (hu : (f db.nextId).userId = uid) (hd : (f db.nextId).direction = dir) :
    lastMessage (db.insertMessage f) uid dir = some (f db.nextId) := by
  unfold lastMessage DB.insertMessage
  simp only [List.filter_append]
  rw [show (List.filter (fun m => m.userId == uid && m.direction == dir) [f db.nextId]) =
      [f db.nextId] by simp [hu, hd]]
  simp

/-- Appending an option row whose `messageId` is at least the current key
bound preserves the invariant (after the corresponding message insert). -/
theorem dbInv_insertOptions_fresh (db : DB) (row : ResponseOptions) (bound : Nat)
    (hold : ∀ r ∈ db.responseOptions, r.messageId < bound)
    (hnew : bound ≤ row.messageId) (hlt : row.messageId < db.nextId)
    (h : DBInv db) : DBInv (db.insertOptions row) := by
  obtain ⟨h1, h2, h3⟩ := h
  refine ⟨?_, h2, ?_⟩
  · intro r hr
    simp only [DB.insertOptions, List.mem_append, List.mem_singleton] at hr
    rcases hr with hr | hr
    · exact h1 r hr
    · rw [hr]; exact hlt
  · simp only [DB.insertOptions]
    rw [List.pairwise_append]
    refine ⟨h3, by simp, ?_⟩
    intro a ha b hb
    simp only [List.mem_singleton] at hb
    rw [hb]
    exact Nat.ne_of_lt (Nat.lt_of_lt_of_le (hold a ha) hnew)

theorem dbInv_relayFinalResponse (user : Party) (db : DB) (finalResponse : String)
    (sendOk : Bool) (h : DBInv db) : DBInv (relayFinalResponse user db finalResponse sendOk).2.1 := by
  unfold relayFinalResponse
  cases sendOk
  · simpa using h
  · simpa [saveUserResponse] using dbInv_insertMessage db _ rfl h

theorem dbInv_handleSpecialCommand (user : Party) (db : DB) (command : Option Command)
    (sendOk : Bool) (h : DBInv db) :
    DBInv (handleSpecialCommand user db command sendOk).2.1 := by
  rcases command with _ | c
  · simpa [handleSpecialCommand] using h
  · cases c <;> simpa [handleSpecialCommand] using h

theorem dbInv_handleUserResponse (user : Party) (db : DB) (body : String)
    (modOutcome : Option FilterUserResponseResult) (sendOk : Bool) (h : DBInv db) :
    DBInv (handleUserResponse user db body modOutcome sendOk).2.1 := by
  unfold handleUserResponse
  dsimp only
  split
  · exact dbInv_handleSpecialCommand _ _ _ _ h
  · split
    · exact h
    · split
      · split
        · exact dbInv_relayFinalResponse _ _ _ _ h
        · split
          · exact dbInv_relayFinalResponse _ _ _ _ h
          · exact h
      · split
        · split
          · exact h
          · exact dbInv_relayFinalResponse _ _ _ _ h
        · exact h

theorem dbInv_handleClientInitiatedMessage (user : Party) (db : DB)
    (messageBody messageSid : String) (genOutcome : Option OutgoingOptionsResult)
    (sendOk : Bool) (h : DBInv db) :
    DBInv (handleClientInitiatedMessage user db messageBody messageSid genOutcome sendOk).2.1 := by
  unfold handleClientInitiatedMessage
  dsimp only
  split
  · exact dbInv_handleSpecialCommand _ _ _ _ h
  · split
    · exact h
    · split
      · exact h
      · rename_i aiResult
        have hins : DBInv (saveOutgoingMessageIntent db user.id messageBody aiResult messageSid) :=
          dbInv_insertMessage db _ rfl h
        split
        · unfold saveOutgoingMessageOptions
          rw [show lastMessage (saveOutgoingMessageIntent db user.id messageBody aiResult
                messageSid) user.id "outgoing_intent" = some _ from
              lastMessage_insertMessage_match db _ user.id "outgoing_intent" rfl rfl]
          exact dbInv_insertOptions_fresh _ _ db.nextId (fun r hr => h.1 r hr)
            (le_refl _) (by simp [saveOutgoingMessageIntent, DB.insertMessage]) hins
        · exact hins

theorem dbInv_handleExPartnerMessage (user : Party) (db : DB)
    (fromPhone messageBody messageSid : String) (aiOutcome : Option AIProcessingResult)
    (sendOk : Bool) (h : DBInv db) :
    DBInv (handleExPartnerMessage user db fromPhone messageBody messageSid aiOutcome sendOk).1 := by
  unfold handleExPartnerMessage
  dsimp only
  split
  · exact h
  · split
    · exact h
    · rename_i aiResult
      have hins : DBInv (saveIncomingMessage db user.id fromPhone messageBody aiResult
          messageSid) := dbInv_insertMessage db _ rfl h
      split
      · unfold saveResponseOptions
        rw [show lastMessage (saveIncomingMessage db user.id fromPhone messageBody aiResult
              messageSid) user.id "incoming" = some _ from
            lastMessage_insertMessage_match db _ user.id "incoming" rfl rfl]
        exact dbInv_insertOptions_fresh _ _ db.nextId (fun r hr => h.1 r hr)
          (le_refl _) (by simp [saveIncomingMessage, DB.insertMessage]) hins
      · exact hins

theorem dbInv_webhookStep (st : Sys) (ev : WebhookEvent) (h : DBInv st.db) :
    DBInv (webhookStep st ev).1.db := by
  unfold webhookStep
  dsimp only
  split
  · exact h
  · split
    · exact h
    · split
      · split
        · exact dbInv_handleUserResponse _ _ _ _ _ h
        · exact dbInv_handleClientInitiatedMessage _ _ _ _ _ _ h
      · exact dbInv_handleExPartnerMessage _ _ _ _ _ _ _ h

theorem dbInv_runWebhook (evs : List WebhookEvent) (st : Sys) (h : DBInv st.db) :
    DBInv (runWebhook st evs).db := by
  induction evs generalizing st with
  | nil => simpa [runWebhook] using h
  | cons e rest ih =>
    have : runWebhook st (e :: rest) = runWebhook (webhookStep st e).1 rest := by
      simp [runWebhook]
    rw [this]
    exact ih _ (dbInv_webhookStep st e h)

/-- C3 amended: in every record-store state reachable by webhook invocations
from an empty store, each Message Record has at most one Reply Option Set
(option rows have pairwise distinct message ids); unresolved sets may
accumulate per direction class — one per Message Record — and the pending
check consults only the set attached to the most recent Message Record of
each direction class. -/
theorem at_most_one_option_set_per_message (u : Party) (evs : List WebhookEvent) :
    ((runWebhook ⟨u, {}⟩ evs).db.responseOptions).Pairwise
      (fun a b => a.messageId ≠ b.messageId) :=
  (dbInv_runWebhook evs ⟨u, {}⟩ dbInv_empty).2.2

/-! ## C7 — option-selection parsing is total and exclusive -/

theorem jsToLower_length (s : String) : (jsToLower s).length = s.length := by
  cases s with
  | mk l => simp [jsToLower, String.length]

theorem string_eq_empty_iff (t : String) : t = "" ↔ t.length = 0 := by
  cases t with
  | mk l =>
    constructor
    · intro h
      rw [h]
      rfl
    · intro h
      simp only [String.length] at h
      rw [List.length_eq_zero] at h
      rw [h]

/-- Statement-side characterization of the claim's "a digit or word form
matches": the trimmed input is one of the exact digits `1`/`2`/`3` or one of
the twelve case-insensitive word forms. -/
def matchesDigitOrWordForm (trimmed : String) : Prop :=
  trimmed = "1" ∨ trimmed = "2" ∨ trimmed = "3" ∨
  jsToLower trimmed ∈ (["one", "first", "option 1", "option one",
    "two", "second", "option 2", "option two",
    "three", "third", "option 3", "option three"] : List String)

theorem jsToLower_word_length {s w : String} (e : jsToLower s = w) :
    s.length = w.length := by
  rw [← jsToLower_length s, e]

theorem c7_len_ne_empty {s : String} {k : Nat} (h : s.length = k + 1 + 1 + 1) : s ≠ "" := by
  rw [Ne, string_eq_empty_iff]
  omega

/-- Shared branch lemma for C7: the conclusion of
`parseUserResponse_total_exclusive` in the case of an option selection. -/
theorem c7_option_branch (s : String) (k : Nat)
    (hk : k = 1 ∨ k = 2 ∨ k = 3)
    (hr : parseUserResponse s = { isValidResponse := true, selectedOption := some k })
    (hmat : matchesDigitOrWordForm (jsTrim s))
    (hne : jsTrim s ≠ "") (hlen : (jsTrim s).length ≤ 500) :
    ((parseUserResponse s = { isValidResponse := true, selectedOption := some 1 } ∨
      parseUserResponse s = { isValidResponse := true, selectedOption := some 2 } ∨
      parseUserResponse s = { isValidResponse := true, selectedOption := some 3 })
     ∨ parseUserResponse s = { isValidResponse := true, customResponse := some (jsTrim s) }
     ∨ parseUserResponse s =
        { isValidResponse := false,
          errorMessage := some "Response must be 1, 2, 3, or a custom message (max 500 characters)" })
    ∧ ((parseUserResponse s).selectedOption.isSome →
        (parseUserResponse s).customResponse = none ∧
        (parseUserResponse s).isValidResponse = true)
    ∧ ((parseUserResponse s).customResponse.isSome →
        (parseUserResponse s).selectedOption = none ∧
        (parseUserResponse s).isValidResponse = true)
    ∧ ((parseUserResponse s).isValidResponse = false →
        (parseUserResponse s).selectedOption = none ∧
        (parseUserResponse s).customResponse = none)
    ∧ ((parseUserResponse s).customResponse.isSome ↔
        (¬ matchesDigitOrWordForm (jsTrim s) ∧ jsTrim s ≠ "" ∧ (jsTrim s).length ≤ 500))
    ∧ ((parseUserResponse s).isValidResponse = false ↔
        (jsTrim s = "" ∨ 500 < (jsTrim s).length)) := by
  refine ⟨?_, ?_, ?_, ?_, ?_, ?_⟩
  · rcases hk with e | e | e
    · exact Or.inl (Or.inl (by rw [hr, e]))
    · exact Or.inl (Or.inr (Or.inl (by rw [hr, e])))
    · exact Or.inl (Or.inr (Or.inr (by rw [hr, e])))
  · rw [hr]
    simp
  · rw [hr]
    simp
  · rw [hr]
    simp
  · rw [hr]
    simp [hmat]
  · rw [hr]
    simp only [Bool.true_eq_false, false_iff]
    rintro (hh | hh)
    · exact hne hh
    · omega

/-- C7: for every input, option-selection parsing returns exactly one of
option 1/2/3, custom text, or input error; it returns custom text exactly when
no digit or word form matches, the trimmed text is non-empty, and it has at
most 500 characters; it returns the error outcome exactly when the trimmed
text is empty or longer than 500 characters. -/
theorem parseUserResponse_total_exclusive (s : String) :
    ((parseUserResponse s = { isValidResponse := true, selectedOption := some 1 } ∨
      parseUserResponse s = { isValidResponse := true, selectedOption := some 2 } ∨
      parseUserResponse s = { isValidResponse := true, selectedOption := some 3 })
     ∨ parseUserResponse s = { isValidResponse := true, customResponse := some (jsTrim s) }
     ∨ parseUserResponse s =
        { isValidResponse := false,
          errorMessage := some "Response must be 1, 2, 3, or a custom message (max 500 characters)" })
    ∧ ((parseUserResponse s).selectedOption.isSome →
        (parseUserResponse s).customResponse = none ∧
        (parseUserResponse s).isValidResponse = true)
    ∧ ((parseUserResponse s).customResponse.isSome →
        (parseUserResponse s).selectedOption = none ∧
        (parseUserResponse s).isValidResponse = true)
    ∧ ((parseUserResponse s).isValidResponse = false →
        (parseUserResponse s).selectedOption = none ∧
        (parseUserResponse s).customResponse = none)
    ∧ ((parseUserResponse s).customResponse.isSome ↔
        (¬ matchesDigitOrWordForm (jsTrim s) ∧ jsTrim s ≠ "" ∧ (jsTrim s).length ≤ 500))
    ∧ ((parseUserResponse s).isValidResponse = false ↔
        (jsTrim s = "" ∨ 500 < (jsTrim s).length)) := by
  by_cases h1 : jsTrim s = "1" ∨ jsTrim s = "2" ∨ jsTrim s = "3"
  · have hr0 : parseUserResponse s =
        { isValidResponse := true,
          selectedOption := some (if jsTrim s = "1" then 1 else if jsTrim s = "2" then 2 else 3) } := by
      unfold parseUserResponse
      dsimp only
      rw [if_pos h1]
    rcases h1 with e | e | e
    · exact c7_option_branch s 1 (Or.inl rfl) (by rw [hr0]; simp [e]) (Or.inl e)
        (by rw [e]; decide) (by rw [e]; decide)
    · exact c7_option_branch s 2 (Or.inr (Or.inl rfl)) (by rw [hr0]; simp [e])
        (Or.inr (Or.inl e)) (by rw [e]; decide) (by rw [e]; decide)
    · exact c7_option_branch s 3 (Or.inr (Or.inr rfl)) (by rw [hr0]; simp [e])
        (Or.inr (Or.inr (Or.inl e))) (by rw [e]; decide) (by rw [e]; decide)
  · by_cases h2 : jsToLower (jsTrim s) = "one" ∨ jsToLower (jsTrim s) = "first" ∨
        jsToLower (jsTrim s) = "option 1" ∨ jsToLower (jsTrim s) = "option one"
    · have hr : parseUserResponse s = { isValidResponse := true, selectedOption := some 1 } := by
        unfold parseUserResponse
        dsimp only
        rw [if_neg h1, if_pos h2]
      have hmat : matchesDigitOrWordForm (jsTrim s) := by
        rcases h2 with e | e | e | e
        all_goals exact Or.inr (Or.inr (Or.inr (by simp [e])))
      refine c7_option_branch s 1 (Or.inl rfl) hr hmat ?_ ?_
      · rcases h2 with e | e | e | e
        all_goals
          have hl := jsToLower_word_length e
          rw [Ne, string_eq_empty_iff, hl]
          decide
      · rcases h2 with e | e | e | e
        all_goals
          have hl := jsToLower_word_length e
          rw [hl]
          decide
    · by_cases h3 : jsToLower (jsTrim s) = "two" ∨ jsToLower (jsTrim s) = "second" ∨
          jsToLower (jsTrim s) = "option 2" ∨ jsToLower (jsTrim s) = "option two"
      · have hr : parseUserResponse s = { isValidResponse := true, selectedOption := some 2 } := by
          unfold parseUserResponse
          dsimp only
          rw [if_neg h1, if_neg h2, if_pos h3]
        have hmat : matchesDigitOrWordForm (jsTrim s) := by
          rcases h3 with e | e | e | e
          all_goals exact Or.inr (Or.inr (Or.inr (by simp [e])))
        refine c7_option_branch s 2 (Or.inr (Or.inl rfl)) hr hmat ?_ ?_
        · rcases h3 with e | e | e | e
          all_goals
            have hl := jsToLower_word_length e
            rw [Ne, string_eq_empty_iff, hl]
            decide
        · rcases h3 with e | e | e | e
          all_goals
            have hl := jsToLower_word_length e
            rw [hl]
            decide
      · by_cases h4 : jsToLower (jsTrim s) = "three" ∨ jsToLower (jsTrim s) = "third" ∨
            jsToLower (jsTrim s) = "option 3" ∨ jsToLower (jsTrim s) = "option three"
        · have hr : parseUserResponse s =
              { isValidResponse := true, selectedOption := some 3 } := by
            unfold parseUserResponse
            dsimp only
            rw [if_neg h1, if_neg h2, if_neg h3, if_pos h4]
          have hmat : matchesDigitOrWordForm (jsTrim s) := by
            rcases h4 with e | e | e | e
            all_goals exact Or.inr (Or.inr (Or.inr (by simp [e])))
          refine c7_option_branch s 3 (Or.inr (Or.inr rfl)) hr hmat ?_ ?_
          · rcases h4 with e | e | e | e
            all_goals
              have hl := jsToLower_word_length e
              rw [Ne, string_eq_empty_iff, hl]
              decide
          · rcases h4 with e | e | e | e
            all_goals
              have hl := jsToLower_word_length e
              rw [hl]
              decide
        · by_cases h5 : 0 < (jsTrim s).length ∧ (jsTrim s).length ≤ 500
          · -- custom free-form reply
            have hr : parseUserResponse s =
                { isValidResponse := true, customResponse := some (jsTrim s) } := by
              unfold parseUserResponse
              dsimp only
              rw [if_neg h1, if_neg h2, if_neg h3, if_neg h4, if_pos h5]
            have hm : ¬ matchesDigitOrWordForm (jsTrim s) := by
              simp only [matchesDigitOrWordForm, List.mem_cons, List.not_mem_nil, or_false]
              tauto
            have hne : jsTrim s ≠ "" := by
              rw [Ne, string_eq_empty_iff]
              omega
            refine ⟨Or.inr (Or.inl hr), ?_, ?_, ?_, ?_, ?_⟩
            · rw [hr]
              simp
            · rw [hr]
              simp
            · rw [hr]
              simp
            · rw [hr]
              simp only [Option.isSome_some, true_iff]
              exact ⟨hm, hne, h5.2⟩
            · rw [hr]
              simp only [Bool.true_eq_false, false_iff]
              rintro (hh | hh)
              · exact hne hh
              · omega
          · -- input error
            have hr : parseUserResponse s =
                { isValidResponse := false,
                  errorMessage :=
                    some "Response must be 1, 2, 3, or a custom message (max 500 characters)" } := by
              unfold parseUserResponse
              dsimp only
              rw [if_neg h1, if_neg h2, if_neg h3, if_neg h4, if_neg h5]
            have h5' : (jsTrim s).length = 0 ∨ 500 < (jsTrim s).length := by
              rcases Nat.eq_zero_or_pos (jsTrim s).length with hz | hp
              · exact Or.inl hz
              · right
                by_contra hc
                exact h5 ⟨hp, by omega⟩
            refine ⟨Or.inr (Or.inr hr), ?_, ?_, ?_, ?_, ?_⟩
            · rw [hr]
              simp
            · rw [hr]
              simp
            · rw [hr]
              simp
            · rw [hr]
              simp only [Option.isSome_none, Bool.false_eq_true, false_iff, not_and]
              intro _ hne hle
              rcases h5' with hz | hp
              · exact hne ((string_eq_empty_iff _).mpr hz)
              · omega
            · rw [hr]
              simp only [eq_self_iff_true, true_iff]
              rcases h5' with hz | hp
              · exact Or.inl ((string_eq_empty_iff _).mpr hz)
              · exact Or.inr hp

/-! ## C9 — setup parsing: match counting and phone validity

Any substring matched by the phone pattern contains between 10 and 14
characters that are digits (10 mandatory digits, plus at most the optional
literal `1` and the three optional separators as a coarse upper bound), so its
normalization always passes `isValidPhoneNumber`. -/

def pcompMinDigits : PComp → Nat
  | .lit _ => 0
  | .sep => 0
  | .dig n => n

def pcompMaxDigits : PComp → Nat
  | .lit c => if c.isDigit then 1 else 0
  | .sep => 1
  | .dig n => n

def minDigits (ps : List PComp) : Nat := (ps.map pcompMinDigits).sum

def maxDigits (ps : List PComp) : Nat := (ps.map pcompMaxDigits).sum

theorem takeDigits_spec : ∀ (n : Nat) (cs ds rest : List Char),
    takeDigits n cs = some (ds, rest) → ds.length = n ∧ ∀ c ∈ ds, c.isDigit = true := by
  intro n
  induction n with
  | zero =>
    intro cs ds rest h
    simp only [takeDigits, Option.some.injEq, Prod.mk.injEq] at h
    rw [← h.1]
    simp
  | succ m ih =>
    intro cs ds rest h
    cases cs with
    | nil => simp [takeDigits] at h
    | cons c cs' =>
      simp only [takeDigits] at h
      by_cases hd : c.isDigit
      · rw [if_pos hd] at h
        cases ht : takeDigits m cs' with
        | none => rw [ht] at h; simp at h
        | some dr =>
          rw [ht] at h
          obtain ⟨ds', rest'⟩ := dr
          simp only [Option.some.injEq, Prod.mk.injEq] at h
          obtain ⟨hds, -⟩ := h
          obtain ⟨hlen, hall⟩ := ih cs' ds' rest' ht
          rw [← hds]
          refine ⟨by simp [hlen], ?_⟩
          intro x hx
          rcases List.mem_cons.mp hx with rfl | hx
          · exact hd
          · exact hall x hx
      · rw [if_neg hd] at h
        simp at h

theorem matchComps_digit_bounds :
    ∀ (ps : List PComp) (cs pre rest : List Char),
      matchComps ps cs = some (pre, rest) →
      minDigits ps ≤ (pre.filter Char.isDigit).length ∧
      (pre.filter Char.isDigit).length ≤ maxDigits ps := by
  intro ps
  induction ps with
  | nil =>
    intro cs pre rest h
    simp only [matchComps, Option.some.injEq, Prod.mk.injEq] at h
    rw [← h.1]
    simp [minDigits, maxDigits]
  | cons p ps ih =>
    intro cs pre rest h
    have hmin_cons : minDigits (p :: ps) = pcompMinDigits p + minDigits ps := by
      simp [minDigits]
    have hmax_cons : maxDigits (p :: ps) = pcompMaxDigits p + maxDigits ps := by
      simp [maxDigits]
    cases p with
    | lit c =>
      cases cs with
      | nil =>
        simp only [matchComps] at h
        obtain ⟨h1, h2⟩ := ih [] pre rest h
        refine ⟨?_, ?_⟩
        · rw [hmin_cons]
          simpa [pcompMinDigits] using h1
        · rw [hmax_cons]
          omega
      | cons c' cs' =>
        simp only [matchComps] at h
        by_cases hc : c' = c
        · rw [if_pos hc] at h
          cases hm : matchComps ps cs' with
          | some pr =>
            rw [hm] at h
            obtain ⟨pre', rest'⟩ := pr
            simp only [Option.some.injEq, Prod.mk.injEq] at h
            obtain ⟨hpre, -⟩ := h
            obtain ⟨h1, h2⟩ := ih cs' pre' rest' hm
            rw [← hpre, hmin_cons, hmax_cons]
            by_cases hd : c'.isDigit
            · simp only [List.filter_cons, hd, pcompMinDigits, pcompMaxDigits, ← hc]
              simp only [hd, if_true, List.length_cons]
              omega
            · simp only [List.filter_cons, pcompMinDigits, pcompMaxDigits, ← hc]
              simp only [hd, Bool.false_eq_true, if_false]
              omega
          | none =>
            rw [hm] at h
            obtain ⟨h1, h2⟩ := ih (c' :: cs') pre rest h
            rw [hmin_cons, hmax_cons]
            constructor
            · simpa [pcompMinDigits] using h1
            · omega
        · rw [if_neg hc] at h
          obtain ⟨h1, h2⟩ := ih (c' :: cs') pre rest h
          rw [hmin_cons, hmax_cons]
          constructor
          · simpa [pcompMinDigits] using h1
          · omega
    | sep =>
      cases cs with
      | nil =>
        simp only [matchComps] at h
        obtain ⟨h1, h2⟩ := ih [] pre rest h
        rw [hmin_cons, hmax_cons]
        constructor
        · simpa [pcompMinDigits] using h1
        · omega
      | cons c' cs' =>
        simp only [matchComps] at h
        by_cases hc : isSepChar c'
        · rw [if_pos hc] at h
          cases hm : matchComps ps cs' with
          | some pr =>
            rw [hm] at h
            obtain ⟨pre', rest'⟩ := pr
            simp only [Option.some.injEq, Prod.mk.injEq] at h
            obtain ⟨hpre, -⟩ := h
            obtain ⟨h1, h2⟩ := ih cs' pre' rest' hm
            rw [← hpre, hmin_cons, hmax_cons]
            simp only [List.filter_cons, pcompMinDigits, pcompMaxDigits]
            split
            all_goals try simp only [List.length_cons]
            all_goals omega
          | none =>
            rw [hm] at h
            obtain ⟨h1, h2⟩ := ih (c' :: cs') pre rest h
            rw [hmin_cons, hmax_cons]
            constructor
            · simpa [pcompMinDigits] using h1
            · omega
        · rw [if_neg hc] at h
          obtain ⟨h1, h2⟩ := ih (c' :: cs') pre rest h
          rw [hmin_cons, hmax_cons]
          constructor
          · simpa [pcompMinDigits] using h1
          · omega
    | dig n =>
      simp only [matchComps] at h
      cases ht : takeDigits n cs with
      | none => rw [ht] at h; simp at h
      | some dr =>
        obtain ⟨ds, dsRest⟩ := dr
        rw [ht] at h
        dsimp only at h
        cases hm : matchComps ps dsRest with
        | none => rw [hm] at h; simp at h
        | some pr =>
          rw [hm] at h
          obtain ⟨pre', rest'⟩ := pr
          simp only [Option.some.injEq, Prod.mk.injEq] at h
          obtain ⟨hpre, -⟩ := h
          obtain ⟨hlen, hall⟩ := takeDigits_spec n cs ds dsRest ht
          obtain ⟨h1, h2⟩ := ih dsRest pre' rest' hm
          have hfds : ds.filter Char.isDigit = ds := List.filter_eq_self.mpr hall
          rw [← hpre, hmin_cons, hmax_cons]
          simp only [List.filter_append, List.length_append, hfds, hlen,
            pcompMinDigits, pcompMaxDigits]
          omega

theorem matchComps_phone_valid (cs pre rest : List Char)
    (h : matchComps phonePattern cs = some (pre, rest)) :
    isValidPhoneNumber (formatPhoneNumber (String.mk pre)) = true := by
  obtain ⟨hmin, hmax⟩ := matchComps_digit_bounds phonePattern cs pre rest h
  have hminv : minDigits phonePattern = 10 := by decide
  have hmaxv : maxDigits phonePattern = 14 := by decide
  rw [hminv] at hmin
  rw [hmaxv] at hmax
  have hall : ∀ c ∈ pre.filter Char.isDigit, c.isDigit = true := by
    intro c hc
    exact List.of_mem_filter hc
  have hself : (pre.filter Char.isDigit).filter Char.isDigit = pre.filter Char.isDigit :=
    List.filter_eq_self.mpr hall
  have hclean : cleanDigits (String.mk pre) = pre.filter Char.isDigit := rfl
  unfold formatPhoneNumber
  dsimp only
  by_cases h10 : (String.mk (cleanDigits (String.mk pre))).length = 10
  · rw [if_pos h10]
    have hdata : ("+1" ++ String.mk (pre.filter Char.isDigit)).data =
        '+' :: '1' :: pre.filter Char.isDigit := rfl
    unfold isValidPhoneNumber cleanDigits
    dsimp only
    rw [hdata]
    simp only [List.filter_cons]
    rw [show ('+' : Char).isDigit = false from rfl,
        show ('1' : Char).isDigit = true from rfl]
    simp only [Bool.false_eq_true, if_false, if_true, List.length_cons, hself]
    have hlen10 : (pre.filter Char.isDigit).length = 10 := h10
    rw [hlen10]
    decide
  · rw [if_neg h10]
    have hlen : (String.mk (cleanDigits (String.mk pre))).length =
        (pre.filter Char.isDigit).length := rfl
    have hge : 10 ≤ (pre.filter Char.isDigit).length := hmin
    have hne10 : (pre.filter Char.isDigit).length ≠ 10 := fun hx => h10 (hlen.trans hx)
    have hge11 : 11 ≤ (pre.filter Char.isDigit).length := by omega
    have hsw : startsWithPlus (String.mk (cleanDigits (String.mk pre))) = false := by
      unfold startsWithPlus
      cases hl : (pre.filter Char.isDigit) with
      | nil =>
        exfalso
        rw [hl] at hge11
        simp at hge11
      | cons c rest' =>
        have hcd : c.isDigit = true := hall c (by rw [hl]; exact List.mem_cons_self c rest')
        have : c ≠ '+' := by
          intro hc
          rw [hc] at hcd
          exact absurd hcd (by decide)
        simp only [hclean, hl]
        simp [this]
    rw [hsw]
    simp only [Bool.not_false, if_true]
    have hdata : ("+" ++ String.mk (pre.filter Char.isDigit)).data =
        '+' :: pre.filter Char.isDigit := rfl
    unfold isValidPhoneNumber cleanDigits
    dsimp only
    rw [hdata]
    simp only [List.filter_cons]
    rw [show ('+' : Char).isDigit = false from rfl]
    simp only [Bool.false_eq_true, if_false, hself]
    simp only [Bool.and_eq_true, decide_eq_true_eq]
    omega

theorem scanAux_sound : ∀ (fuel : Nat) (cs m : List Char),
    m ∈ scanAux fuel cs → ∃ start rest, matchComps phonePattern start = some (m, rest) := by
  intro fuel
  induction fuel with
  | zero =>
    intro cs m h
    simp [scanAux] at h
  | succ f ih =>
    intro cs m h
    cases cs with
    | nil => simp [scanAux] at h
    | cons c cs' =>
      simp only [scanAux] at h
      cases hm : matchComps phonePattern (c :: cs') with
      | some pr =>
        rw [hm] at h
        obtain ⟨pre, rest⟩ := pr
        dsimp only at h
        by_cases hemp : pre.isEmpty
        · rw [if_pos hemp] at h
          rcases List.mem_cons.mp h with rfl | h
          · exact ⟨c :: cs', rest, hm⟩
          · exact ih cs' m h
        · rw [if_neg hemp] at h
          rcases List.mem_cons.mp h with rfl | h
          · exact ⟨c :: cs', rest, hm⟩
          · exact ih rest m h
      | none =>
        rw [hm] at h
        exact ih cs' m h

/-- C9: setup parsing errors with the no-phone-number message when no
phone-shaped substring matches, errors with the distinct multiple-numbers
message when two or more match, and with exactly one match returns a setup
result whose normalized counterpart phone passes phone validity. -/
theorem parseSetupMessage_match_counts (messageText : String) :
    (phoneMatches (jsTrim messageText).data = [] →
      parseSetupMessage messageText =
        { isSetupMessage := false, error := some noPhoneFoundError })
    ∧ (2 ≤ (phoneMatches (jsTrim messageText).data).length →
      parseSetupMessage messageText =
        { isSetupMessage := false, error := some multiplePhonesError })
    ∧ noPhoneFoundError ≠ multiplePhonesError
    ∧ (∀ m, phoneMatches (jsTrim messageText).data = [m] →
        (parseSetupMessage messageText).isSetupMessage = true
        ∧ (parseSetupMessage messageText).exPartnerPhone =
            some (formatPhoneNumber (String.mk m))
        ∧ isValidPhoneNumber (formatPhoneNumber (String.mk m)) = true) := by
  refine ⟨?_, ?_, by decide, ?_⟩
  · intro h
    unfold parseSetupMessage
    dsimp only
    rw [h]
  · intro h
    cases hms : phoneMatches (jsTrim messageText).data with
    | nil =>
      rw [hms] at h
      simp at h
    | cons m rest =>
      have hrest : rest ≠ [] := by
        intro hr
        rw [hms, hr] at h
        simp at h
      unfold parseSetupMessage
      dsimp only
      rw [hms]
      simp [hrest]
  · intro m hm
    have hvalid : isValidPhoneNumber (formatPhoneNumber (String.mk m)) = true := by
      have hmem : m ∈ phoneMatches (jsTrim messageText).data := by
        rw [hm]
        exact List.mem_singleton_self m
      obtain ⟨start, rest, hmc⟩ := scanAux_sound _ _ m hmem
      exact matchComps_phone_valid start m rest hmc
    have hres : parseSetupMessage messageText =
        { isSetupMessage := true
          exPartnerPhone := some (formatPhoneNumber (String.mk m))
          userName := (extractNamesFromSetupMessage (jsTrim messageText) (String.mk m)).1
          exPartnerName := (extractNamesFromSetupMessage (jsTrim messageText) (String.mk m)).2 } := by
      unfold parseSetupMessage
      dsimp only
      rw [hm]
      simp [hvalid]
    rw [hres]
    exact ⟨rfl, rfl, hvalid⟩

/-- Witness for C9: one concrete input per interesting branch. -/
theorem parseSetupMessage_match_counts_witness :
    (parseSetupMessage "hello").error = some noPhoneFoundError
    ∧ (parseSetupMessage "555-123-4567").isSetupMessage = true
    ∧ (parseSetupMessage "a 5551234567 b 5559876543").error = some multiplePhonesError :=
  ⟨by rw [(parseSetupMessage_match_counts "hello").1 (by decide)],
   ((parseSetupMessage_match_counts "555-123-4567").2.2.2
      ("555-123-4567").data (by decide)).1,
   by rw [(parseSetupMessage_match_counts "a 5551234567 b 5559876543").2.1 (by decide)]⟩

end SafeTalk
